import Mathlib

/-!
# Group operations of the management API (`api/group.go`)

A shallow embedding of the group operations of `AuthAPI` together with the
properties they satisfy, followed by the error responders of the worker in
`http/handler.go`.

The operations talk to collaborators that live outside `group.go`: the group
repository, the authorization filter `GetAuthorizedGroups`, the user and policy
lookups of the API, the field validators, the URN builders, the UUID generator
and the clock.  They are fields of the receiver `AuthAPI σ`; the stateful ones
thread a world state of an arbitrary type `σ`, so a collaborator may answer
differently each time it is asked.  Every operation returns, next to its Go
result, the final world state and the list of collaborator calls it made, each
call recorded with its arguments and its answer, oldest first.

Go's `(value, error)` results are `Except` values, a plain `error` result is an
`Option`, and a slice an operation builds is a `Slice`, which tells the nil
slice from the empty one.  Errors of the repository are `database.Error` values
(every `err.(*database.Error)` of `group.go` relies on it) and errors of the API
layer are `api.Error` values (the `err.(*Error)` of `UpdateGroup` relies on it).
-/

namespace Foulkon

/-! ## Data model -/

/-- Group domain (`type Group struct`); `CreateAt` is an abstract time stamp. -/
structure Group where
  ID : String
  Name : String
  Path : String
  CreateAt : Nat
  Urn : String
  Org : String
  deriving DecidableEq, Repr

/-- Method `func (g Group) GetUrn() string`. -/
def Group.GetUrn (g : Group) : String := g.Urn

/-- Group identifier to retrieve them from DB (`type GroupIdentity struct`). -/
structure GroupIdentity where
  Org : String
  Name : String
  deriving DecidableEq, Repr

/-- User domain, with the fields the repository test fills in. -/
structure User where
  ID : String
  ExternalID : String
  Path : String
  Urn : String
  CreateAt : Nat
  deriving DecidableEq, Repr

/-- Policy domain, without its statements (the group operations read only
`ID`, `Name` and `Org`). -/
structure Policy where
  ID : String
  Name : String
  Path : String
  Org : String
  Urn : String
  CreateAt : Nat
  deriving DecidableEq, Repr

/-- Caller context handed to every operation. -/
structure AuthenticatedUser where
  Identifier : String
  Admin : Bool
  deriving DecidableEq, Repr

/-- Error codes of the API layer that `group.go` produces; `other` stands for
every further code a collaborator of the API may answer with. -/
inductive ErrorCode where
  | UNKNOWN_API_ERROR
  | INVALID_PARAMETER_ERROR
  | UNAUTHORIZED_RESOURCES_ERROR
  | GROUP_BY_ORG_AND_NAME_NOT_FOUND
  | GROUP_ALREADY_EXIST
  | USER_IS_ALREADY_A_MEMBER_OF_GROUP
  | USER_IS_NOT_A_MEMBER_OF_GROUP
  | POLICY_IS_ALREADY_ATTACHED_TO_GROUP
  | POLICY_IS_NOT_ATTACHED_TO_GROUP
  | other (code : String)
  deriving DecidableEq, Repr

/-- API error (`api.Error`). -/
structure Error where
  Code : ErrorCode
  Message : String
  deriving DecidableEq, Repr

/-- Error codes of the database layer; `group.go` inspects `GROUP_NOT_FOUND`
only. -/
inductive DBCode where
  | GROUP_NOT_FOUND
  | INTERNAL_ERROR
  | other (code : String)
  deriving DecidableEq, Repr

/-- Database error (`database.Error`). -/
structure DBError where
  Code : DBCode
  Message : String
  deriving DecidableEq, Repr

/-- Actions the group operations ask the authorization filter about. -/
inductive Action where
  | GROUP_ACTION_CREATE_GROUP
  | GROUP_ACTION_DELETE_GROUP
  | GROUP_ACTION_GET_GROUP
  | GROUP_ACTION_LIST_GROUPS
  | GROUP_ACTION_UPDATE_GROUP
  | GROUP_ACTION_LIST_MEMBERS
  | GROUP_ACTION_ADD_MEMBER
  | GROUP_ACTION_REMOVE_MEMBER
  | GROUP_ACTION_ATTACH_GROUP_POLICY
  | GROUP_ACTION_DETACH_GROUP_POLICY
  | GROUP_ACTION_LIST_ATTACHED_GROUP_POLICIES
  deriving DecidableEq, Repr

/-! ## Collaborators -/

/-- Group repository as `group.go` uses it (`api.GroupRepo.…`). -/
structure GroupRepo (σ : Type) where
  GetGroupByName : String → String → σ → Except DBError Group × σ
  AddGroup : Group → σ → Except DBError Group × σ
  IsMemberOfGroup : String → String → σ → Except DBError Bool × σ
  AddMember : String → String → σ → Option DBError × σ
  RemoveMember : String → String → σ → Option DBError × σ
  GetGroupMembers : String → σ → Except DBError (List User) × σ
  RemoveGroup : String → σ → Option DBError × σ
  GetGroupsFiltered : String → String → σ → Except DBError (List Group) × σ
  UpdateGroup : Group → String → String → String → σ → Except DBError Group × σ
  IsAttachedToGroup : String → String → σ → Except DBError Bool × σ
  AttachPolicy : String → String → σ → Option DBError × σ
  DetachPolicy : String → String → σ → Option DBError × σ
  GetAttachedPolicies : String → σ → Except DBError (List Policy) × σ

/-- Receiver of the operations: the repository and everything else `group.go`
calls but does not define. -/
structure AuthAPI (σ : Type) where
  GroupRepo : GroupRepo σ
  GetAuthorizedGroups :
    AuthenticatedUser → String → Action → List Group → σ → Except Error (List Group) × σ
  GetUserByExternalId : AuthenticatedUser → String → σ → Except Error User × σ
  GetPolicyByName : AuthenticatedUser → String → String → σ → Except Error Policy × σ
  IsValidName : String → Bool
  IsValidOrg : String → Bool
  IsValidPath : String → Bool
  IsValidUserExternalID : String → Bool
  CreateUrn : String → String → String → String → String
  GetUrnPrefix : String → String → String → String
  RESOURCE_GROUP : String
  NewV4 : σ → String × σ
  Now : σ → Nat × σ

deriving instance DecidableEq for Except

/-- One collaborator call, with its arguments and its answer. -/
inductive Call where
  | GetAuthorizedGroups (user : AuthenticatedUser) (urn : String) (action : Action)
      (groups : List Group) (ret : Except Error (List Group))
  | GetUserByExternalId (user : AuthenticatedUser) (id : String) (ret : Except Error User)
  | GetPolicyByName (user : AuthenticatedUser) (org name : String) (ret : Except Error Policy)
  | RepoGetGroupByName (org name : String) (ret : Except DBError Group)
  | RepoAddGroup (group : Group) (ret : Except DBError Group)
  | RepoIsMemberOfGroup (userID groupID : String) (ret : Except DBError Bool)
  | RepoAddMember (userID groupID : String) (ret : Option DBError)
  | RepoRemoveMember (userID groupID : String) (ret : Option DBError)
  | RepoGetGroupMembers (groupID : String) (ret : Except DBError (List User))
  | RepoRemoveGroup (groupID : String) (ret : Option DBError)
  | RepoGetGroupsFiltered (org pathPrefix : String) (ret : Except DBError (List Group))
  | RepoUpdateGroup (group : Group) (newName newPath urn : String) (ret : Except DBError Group)
  | RepoIsAttachedToGroup (groupID policyID : String) (ret : Except DBError Bool)
  | RepoAttachPolicy (groupID policyID : String) (ret : Option DBError)
  | RepoDetachPolicy (groupID policyID : String) (ret : Option DBError)
  | RepoGetAttachedPolicies (groupID : String) (ret : Except DBError (List Policy))
  deriving DecidableEq, Repr

/-- Outcome of an operation: its Go result, the world it leaves and the
collaborator calls it made, oldest first. -/
structure Res (σ α : Type) where
  result : Except Error α
  state : σ
  trace : List Call

/-- A Go slice value: the nil slice, or a slice that holds `elems` (none for the
literal `[]T{}`). -/
inductive Slice (α : Type) where
  | nil
  | mk (elems : List α)
  deriving DecidableEq, Repr

/-- Elements of a slice, in order; the nil slice has none. -/
def Slice.toList {α : Type} : Slice α → List α
  | .nil => []
  | .mk elems => elems

/-- Go's `append(s, x)`: a slice that holds the elements of `s` followed by
`x`; it is not nil even when `s` is. -/
def Slice.append {α : Type} (s : Slice α) (x : α) : Slice α := .mk (s.toList ++ [x])

/-- Message of every access-denied error of `group.go`. -/
def notAllowedMessage (identifier urn : String) : String :=
  "User with externalId " ++ identifier ++ " is not allowed to access to resource " ++ urn

/-! ## Operations of `group.go` -/

variable {σ : Type}

/-- Private helper `createGroup`: a group with a fresh UUID, the current time
and the URN built from `(org, RESOURCE_GROUP, path, name)`. -/
def createGroup (api : AuthAPI σ) (org name path : String) (s : σ) : Group × σ :=
  let urn := api.CreateUrn org api.RESOURCE_GROUP path name
  let id := api.NewV4 s
  let now := api.Now id.2
  ({ ID := id.1, Name := name, Path := path, CreateAt := now.1, Urn := urn, Org := org }, now.2)

/-- Method `AuthAPI.GetGroupByName`.  The `match` on the filtered list is
`len(groupsFiltered) > 0` followed by `groupsFiltered[0]`. -/
def GetGroupByName (api : AuthAPI σ) (authenticatedUser : AuthenticatedUser)
    (org name : String) (s : σ) : Res σ Group :=
  -- Validate fields
  if !api.IsValidName name then
    ⟨.error ⟨.INVALID_PARAMETER_ERROR, "Invalid parameter: name " ++ name⟩, s, []⟩
  else if !api.IsValidOrg org then
    ⟨.error ⟨.INVALID_PARAMETER_ERROR, "Invalid parameter: org " ++ org⟩, s, []⟩
  else
    -- Call repo to retrieve the group
    let r := api.GroupRepo.GetGroupByName org name s
    let t1 := [Call.RepoGetGroupByName org name r.1]
    match r.1 with
    | .error dbError =>
      match dbError.Code with
      | .GROUP_NOT_FOUND =>
        ⟨.error ⟨.GROUP_BY_ORG_AND_NAME_NOT_FOUND, dbError.Message⟩, r.2, t1⟩
      | _ => ⟨.error ⟨.UNKNOWN_API_ERROR, dbError.Message⟩, r.2, t1⟩
    | .ok group =>
      -- Check restrictions
      let a := api.GetAuthorizedGroups authenticatedUser group.Urn .GROUP_ACTION_GET_GROUP
        [group] r.2
      let t2 := t1 ++ [Call.GetAuthorizedGroups authenticatedUser group.Urn
        .GROUP_ACTION_GET_GROUP [group] a.1]
      match a.1 with
      | .error err => ⟨.error err, a.2, t2⟩
      | .ok groupsFiltered =>
        -- Check if we have our user authorized
        match groupsFiltered with
        | groupsFiltered0 :: _ => ⟨.ok groupsFiltered0, a.2, t2⟩
        | [] =>
          ⟨.error ⟨.UNAUTHORIZED_RESOURCES_ERROR,
            notAllowedMessage authenticatedUser.Identifier group.Urn⟩, a.2, t2⟩

/-- Method `AuthAPI.AddGroup`: add a group to the database if it does not
exist. -/
def AddGroup (api : AuthAPI σ) (authenticatedUser : AuthenticatedUser)
    (org name path : String) (s : σ) : Res σ Group :=
  -- Validate fields
  if !api.IsValidName name then
    ⟨.error ⟨.INVALID_PARAMETER_ERROR, "Invalid parameter: name " ++ name⟩, s, []⟩
  else if !api.IsValidOrg org then
    ⟨.error ⟨.INVALID_PARAMETER_ERROR, "Invalid parameter: org " ++ org⟩, s, []⟩
  else if !api.IsValidPath path then
    ⟨.error ⟨.INVALID_PARAMETER_ERROR, "Invalid parameter: path " ++ path⟩, s, []⟩
  else
    let c := createGroup api org name path s
    let group := c.1
    -- Check restrictions
    let a := api.GetAuthorizedGroups authenticatedUser group.Urn .GROUP_ACTION_CREATE_GROUP
      [group] c.2
    let t1 := [Call.GetAuthorizedGroups authenticatedUser group.Urn
      .GROUP_ACTION_CREATE_GROUP [group] a.1]
    match a.1 with
    | .error err => ⟨.error err, a.2, t1⟩
    | .ok groupsFiltered =>
      if groupsFiltered.length < 1 then
        ⟨.error ⟨.UNAUTHORIZED_RESOURCES_ERROR,
          notAllowedMessage authenticatedUser.Identifier group.Urn⟩, a.2, t1⟩
      else
        -- Check if group already exists
        let r := api.GroupRepo.GetGroupByName org name a.2
        let t2 := t1 ++ [Call.RepoGetGroupByName org name r.1]
        match r.1 with
        | .error dbError =>
          match dbError.Code with
          | .GROUP_NOT_FOUND =>
            -- Group doesn't exist in DB, so we can create it
            let w := api.GroupRepo.AddGroup group r.2
            let t3 := t2 ++ [Call.RepoAddGroup group w.1]
            match w.1 with
            | .error dbError => ⟨.error ⟨.UNKNOWN_API_ERROR, dbError.Message⟩, w.2, t3⟩
            | .ok createdGroup => ⟨.ok createdGroup, w.2, t3⟩
          | _ => ⟨.error ⟨.UNKNOWN_API_ERROR, dbError.Message⟩, r.2, t2⟩
        | .ok _ =>
          ⟨.error ⟨.GROUP_ALREADY_EXIST,
            "Unable to create group, group with org " ++ org ++ " and name " ++ name
              ++ " already exists"⟩, r.2, t2⟩

/-- Method `AuthAPI.AddMember`: add member to group. -/
def AddMember (api : AuthAPI σ) (authenticatedUser : AuthenticatedUser)
    (userID groupName org : String) (s : σ) : Res σ Unit :=
  -- Validate fields
  if !api.IsValidUserExternalID userID then
    ⟨.error ⟨.INVALID_PARAMETER_ERROR, "Invalid parameter: externalId " ++ userID⟩, s, []⟩
  else if !api.IsValidOrg org then
    ⟨.error ⟨.INVALID_PARAMETER_ERROR, "Invalid parameter: org " ++ org⟩, s, []⟩
  else if !api.IsValidName groupName then
    ⟨.error ⟨.INVALID_PARAMETER_ERROR, "Invalid parameter: name " ++ groupName⟩, s, []⟩
  else
    -- Call repo to retrieve the group
    let g := GetGroupByName api authenticatedUser org groupName s
    match g.result with
    | .error err => ⟨.error err, g.state, g.trace⟩
    | .ok groupDB =>
      -- Check restrictions
      let a := api.GetAuthorizedGroups authenticatedUser groupDB.Urn .GROUP_ACTION_ADD_MEMBER
        [groupDB] g.state
      let t1 := g.trace ++ [Call.GetAuthorizedGroups authenticatedUser groupDB.Urn
        .GROUP_ACTION_ADD_MEMBER [groupDB] a.1]
      match a.1 with
      | .error err => ⟨.error err, a.2, t1⟩
      | .ok groupsFiltered =>
        if groupsFiltered.length < 1 then
          ⟨.error ⟨.UNAUTHORIZED_RESOURCES_ERROR,
            notAllowedMessage authenticatedUser.Identifier groupDB.Urn⟩, a.2, t1⟩
        else
          -- Call repo to retrieve the user
          let u := api.GetUserByExternalId authenticatedUser userID a.2
          let t2 := t1 ++ [Call.GetUserByExternalId authenticatedUser userID u.1]
          match u.1 with
          | .error err => ⟨.error err, u.2, t2⟩
          | .ok userDB =>
            -- Call repo to retrieve the GroupUserRelation
            let m := api.GroupRepo.IsMemberOfGroup userDB.ID groupDB.ID u.2
            let t3 := t2 ++ [Call.RepoIsMemberOfGroup userDB.ID groupDB.ID m.1]
            match m.1 with
            | .error dbError => ⟨.error ⟨.UNKNOWN_API_ERROR, dbError.Message⟩, m.2, t3⟩
            | .ok isMember =>
              if isMember then
                ⟨.error ⟨.USER_IS_ALREADY_A_MEMBER_OF_GROUP,
                  "User: " ++ userID ++ " is already a member of Group: " ++ groupName⟩,
                  m.2, t3⟩
              else
                -- Add Member
                let w := api.GroupRepo.AddMember userDB.ID groupDB.ID m.2
                let t4 := t3 ++ [Call.RepoAddMember userDB.ID groupDB.ID w.1]
                match w.1 with
                | some dbError => ⟨.error ⟨.UNKNOWN_API_ERROR, dbError.Message⟩, w.2, t4⟩
                | none => ⟨.ok (), w.2, t4⟩

/-- Method `AuthAPI.RemoveMember`: remove member from group. -/
def RemoveMember (api : AuthAPI σ) (authenticatedUser : AuthenticatedUser)
    (userID groupName org : String) (s : σ) : Res σ Unit :=
  -- Validate fields
  if !api.IsValidUserExternalID userID then
    ⟨.error ⟨.INVALID_PARAMETER_ERROR, "Invalid parameter: externalId " ++ userID⟩, s, []⟩
  else if !api.IsValidOrg org then
    ⟨.error ⟨.INVALID_PARAMETER_ERROR, "Invalid parameter: org " ++ org⟩, s, []⟩
  else if !api.IsValidName groupName then
    ⟨.error ⟨.INVALID_PARAMETER_ERROR, "Invalid parameter: name " ++ groupName⟩, s, []⟩
  else
    -- Call repo to retrieve the group
    let g := GetGroupByName api authenticatedUser org groupName s
    match g.result with
    | .error err => ⟨.error err, g.state, g.trace⟩
    | .ok groupDB =>
      -- Check restrictions
      let a := api.GetAuthorizedGroups authenticatedUser groupDB.Urn
        .GROUP_ACTION_REMOVE_MEMBER [groupDB] g.state
      let t1 := g.trace ++ [Call.GetAuthorizedGroups authenticatedUser groupDB.Urn
        .GROUP_ACTION_REMOVE_MEMBER [groupDB] a.1]
      match a.1 with
      | .error err => ⟨.error err, a.2, t1⟩
      | .ok groupsFiltered =>
        if groupsFiltered.length < 1 then
          ⟨.error ⟨.UNAUTHORIZED_RESOURCES_ERROR,
            notAllowedMessage authenticatedUser.Identifier groupDB.Urn⟩, a.2, t1⟩
        else
          -- Call repo to retrieve the user
          let u := api.GetUserByExternalId authenticatedUser userID a.2
          let t2 := t1 ++ [Call.GetUserByExternalId authenticatedUser userID u.1]
          match u.1 with
          | .error err => ⟨.error err, u.2, t2⟩
          | .ok userDB =>
            -- Call repo to check if user is a member of group
            let m := api.GroupRepo.IsMemberOfGroup userDB.ID groupDB.ID u.2
            let t3 := t2 ++ [Call.RepoIsMemberOfGroup userDB.ID groupDB.ID m.1]
            match m.1 with
            | .error dbError => ⟨.error ⟨.UNKNOWN_API_ERROR, dbError.Message⟩, m.2, t3⟩
            | .ok isMember =>
              if !isMember then
                ⟨.error ⟨.USER_IS_NOT_A_MEMBER_OF_GROUP,
                  "User with externalId " ++ userDB.ExternalID
                    ++ " is not a member of group with org " ++ groupDB.Org
                    ++ " and name " ++ groupDB.Name⟩, m.2, t3⟩
              else
                -- Remove Member
                let w := api.GroupRepo.RemoveMember userDB.ID groupDB.ID m.2
                let t4 := t3 ++ [Call.RepoRemoveMember userDB.ID groupDB.ID w.1]
                match w.1 with
                | some dbError => ⟨.error ⟨.UNKNOWN_API_ERROR, dbError.Message⟩, w.2, t4⟩
                | none => ⟨.ok (), w.2, t4⟩

/-- Method `AuthAPI.ListMembers`: list members of a group.  The loop appending
`m.ExternalID` for each member is a `map`. -/
def ListMembers (api : AuthAPI σ) (authenticatedUser : AuthenticatedUser)
    (org groupName : String) (s : σ) : Res σ (Slice String) :=
  -- Validate fields
  if !api.IsValidName groupName then
    ⟨.error ⟨.INVALID_PARAMETER_ERROR, "Invalid parameter: name " ++ groupName⟩, s, []⟩
  else if !api.IsValidOrg org then
    ⟨.error ⟨.INVALID_PARAMETER_ERROR, "Invalid parameter: org " ++ org⟩, s, []⟩
  else
    -- Call repo to retrieve the group
    let g := GetGroupByName api authenticatedUser org groupName s
    match g.result with
    | .error err => ⟨.error err, g.state, g.trace⟩
    | .ok group =>
      -- Check restrictions
      let a := api.GetAuthorizedGroups authenticatedUser group.Urn
        .GROUP_ACTION_LIST_MEMBERS [group] g.state
      let t1 := g.trace ++ [Call.GetAuthorizedGroups authenticatedUser group.Urn
        .GROUP_ACTION_LIST_MEMBERS [group] a.1]
      match a.1 with
      | .error err => ⟨.error err, a.2, t1⟩
      | .ok groupsFiltered =>
        if groupsFiltered.length < 1 then
          ⟨.error ⟨.UNAUTHORIZED_RESOURCES_ERROR,
            notAllowedMessage authenticatedUser.Identifier group.Urn⟩, a.2, t1⟩
        else
          -- Get Members
          let m := api.GroupRepo.GetGroupMembers group.ID a.2
          let t2 := t1 ++ [Call.RepoGetGroupMembers group.ID m.1]
          match m.1 with
          | .error dbError => ⟨.error ⟨.UNKNOWN_API_ERROR, dbError.Message⟩, m.2, t2⟩
          | .ok members =>
            let externalIDs : Slice String := .mk []
            ⟨.ok (members.foldl (fun externalIDs m => externalIDs.append m.ExternalID)
              externalIDs), m.2, t2⟩

/-- Method `AuthAPI.RemoveGroup`. -/
def RemoveGroup (api : AuthAPI σ) (authenticatedUser : AuthenticatedUser)
    (org name : String) (s : σ) : Res σ Unit :=
  -- Validate fields
  if !api.IsValidName name then
    ⟨.error ⟨.INVALID_PARAMETER_ERROR, "Invalid parameter: name " ++ name⟩, s, []⟩
  else if !api.IsValidOrg org then
    ⟨.error ⟨.INVALID_PARAMETER_ERROR, "Invalid parameter: org " ++ org⟩, s, []⟩
  else
    -- Call repo to retrieve the group
    let g := GetGroupByName api authenticatedUser org name s
    match g.result with
    | .error err => ⟨.error err, g.state, g.trace⟩
    | .ok group =>
      -- Check restrictions
      let a := api.GetAuthorizedGroups authenticatedUser group.Urn
        .GROUP_ACTION_DELETE_GROUP [group] g.state
      let t1 := g.trace ++ [Call.GetAuthorizedGroups authenticatedUser group.Urn
        .GROUP_ACTION_DELETE_GROUP [group] a.1]
      match a.1 with
      | .error err => ⟨.error err, a.2, t1⟩
      | .ok groupsFiltered =>
        if groupsFiltered.length < 1 then
          ⟨.error ⟨.UNAUTHORIZED_RESOURCES_ERROR,
            notAllowedMessage authenticatedUser.Identifier group.Urn⟩, a.2, t1⟩
        else
          -- Remove group with given org and name
          let w := api.GroupRepo.RemoveGroup group.ID a.2
          let t2 := t1 ++ [Call.RepoRemoveGroup group.ID w.1]
          match w.1 with
          | some dbError => ⟨.error ⟨.UNKNOWN_API_ERROR, dbError.Message⟩, w.2, t2⟩
          | none => ⟨.ok (), w.2, t2⟩

/-- Method `AuthAPI.GetGroupList`.  The loop building a `GroupIdentity` for
each filtered group is a `map`. -/
def GetGroupList (api : AuthAPI σ) (authenticatedUser : AuthenticatedUser)
    (org pathPrefix : String) (s : σ) : Res σ (Slice GroupIdentity) :=
  -- Validate fields
  if org.length > 0 && !api.IsValidOrg org then
    ⟨.error ⟨.INVALID_PARAMETER_ERROR, "Invalid parameter: org " ++ org⟩, s, []⟩
  else if pathPrefix.length > 0 && !api.IsValidPath pathPrefix then
    ⟨.error ⟨.INVALID_PARAMETER_ERROR, "Invalid parameter: PathPrefix " ++ pathPrefix⟩, s, []⟩
  else
    let pathPrefix := if pathPrefix.length = 0 then "/" else pathPrefix
    -- Call repo to retrieve the groups
    let r := api.GroupRepo.GetGroupsFiltered org pathPrefix s
    let t1 := [Call.RepoGetGroupsFiltered org pathPrefix r.1]
    match r.1 with
    | .error dbError => ⟨.error ⟨.UNKNOWN_API_ERROR, dbError.Message⟩, r.2, t1⟩
    | .ok groups =>
      -- Check restrictions to list
      let urnPrefix :=
        if org.length = 0 then "*" else api.GetUrnPrefix org api.RESOURCE_GROUP pathPrefix
      let a := api.GetAuthorizedGroups authenticatedUser urnPrefix .GROUP_ACTION_LIST_GROUPS
        groups r.2
      let t2 := t1 ++ [Call.GetAuthorizedGroups authenticatedUser urnPrefix
        .GROUP_ACTION_LIST_GROUPS groups a.1]
      match a.1 with
      | .error err => ⟨.error err, a.2, t2⟩
      | .ok filteredGroups =>
        -- Transform to identifiers
        let groupIDs : Slice GroupIdentity := .mk []
        ⟨.ok (filteredGroups.foldl
          (fun groupIDs g => groupIDs.append { Org := g.Org, Name := g.Name }) groupIDs),
          a.2, t2⟩

/-- Method `AuthAPI.UpdateGroup`: update a group in the database if it exists.
`early` is the outcome of the two `if`s that follow the lookup of `newName`:
the error they return, or `none` when both fall through. -/
def UpdateGroup (api : AuthAPI σ) (authenticatedUser : AuthenticatedUser)
    (org groupName newName newPath : String) (s : σ) : Res σ Group :=
  -- Validate fields
  if !api.IsValidName newName then
    ⟨.error ⟨.INVALID_PARAMETER_ERROR, "Invalid parameter: name " ++ newName⟩, s, []⟩
  else if !api.IsValidOrg org then
    ⟨.error ⟨.INVALID_PARAMETER_ERROR, "Invalid parameter: org " ++ org⟩, s, []⟩
  else if !api.IsValidPath newPath then
    ⟨.error ⟨.INVALID_PARAMETER_ERROR, "Invalid parameter: path " ++ newPath⟩, s, []⟩
  else
    -- Call repo to retrieve the group
    let g := GetGroupByName api authenticatedUser org groupName s
    match g.result with
    | .error err => ⟨.error err, g.state, g.trace⟩
    | .ok group =>
      -- Check restrictions
      let a := api.GetAuthorizedGroups authenticatedUser group.Urn
        .GROUP_ACTION_UPDATE_GROUP [group] g.state
      let t1 := g.trace ++ [Call.GetAuthorizedGroups authenticatedUser group.Urn
        .GROUP_ACTION_UPDATE_GROUP [group] a.1]
      match a.1 with
      | .error err => ⟨.error err, a.2, t1⟩
      | .ok groupsFiltered =>
        if groupsFiltered.length < 1 then
          ⟨.error ⟨.UNAUTHORIZED_RESOURCES_ERROR,
            notAllowedMessage authenticatedUser.Identifier group.Urn⟩, a.2, t1⟩
        else
          -- Check if a group with "newName" already exists
          let n := GetGroupByName api authenticatedUser org newName a.2
          let t2 := t1 ++ n.trace
          let early : Option Error :=
            match n.result with
            | .ok newGroup =>
              if group.ID ≠ newGroup.ID then
                some ⟨.GROUP_ALREADY_EXIST, "Group name: " ++ newName ++ " already exists"⟩
              else none
            | .error apiError =>
              if apiError.Code = .UNAUTHORIZED_RESOURCES_ERROR
                  ∨ apiError.Code = .UNKNOWN_API_ERROR then
                some apiError
              else none
          match early with
          | some err => ⟨.error err, n.state, t2⟩
          | none =>
            -- Get Group updated
            let c := createGroup api org newName newPath n.state
            let groupToUpdate := c.1
            -- Check restrictions
            let b := api.GetAuthorizedGroups authenticatedUser groupToUpdate.Urn
              .GROUP_ACTION_UPDATE_GROUP [groupToUpdate] c.2
            let t3 := t2 ++ [Call.GetAuthorizedGroups authenticatedUser groupToUpdate.Urn
              .GROUP_ACTION_UPDATE_GROUP [groupToUpdate] b.1]
            match b.1 with
            | .error err => ⟨.error err, b.2, t3⟩
            | .ok groupsFiltered =>
              if groupsFiltered.length < 1 then
                ⟨.error ⟨.UNAUTHORIZED_RESOURCES_ERROR,
                  notAllowedMessage authenticatedUser.Identifier groupToUpdate.Urn⟩, b.2, t3⟩
              else
                -- Update group
                let w := api.GroupRepo.UpdateGroup group newName newPath groupToUpdate.Urn b.2
                let t4 := t3 ++ [Call.RepoUpdateGroup group newName newPath
                  groupToUpdate.Urn w.1]
                match w.1 with
                | .error dbError => ⟨.error ⟨.UNKNOWN_API_ERROR, dbError.Message⟩, w.2, t4⟩
                | .ok group => ⟨.ok group, w.2, t4⟩

/-- Method `AuthAPI.AttachPolicyToGroup`. -/
def AttachPolicyToGroup (api : AuthAPI σ) (authenticatedUser : AuthenticatedUser)
    (org groupName policyName : String) (s : σ) : Res σ Unit :=
  -- Validate fields
  if !api.IsValidName groupName then
    ⟨.error ⟨.INVALID_PARAMETER_ERROR, "Invalid parameter: Group name " ++ groupName⟩, s, []⟩
  else if !api.IsValidOrg org then
    ⟨.error ⟨.INVALID_PARAMETER_ERROR, "Invalid parameter: org " ++ org⟩, s, []⟩
  else if !api.IsValidName policyName then
    ⟨.error ⟨.INVALID_PARAMETER_ERROR, "Invalid parameter: Policy name " ++ policyName⟩, s, []⟩
  else
    -- Check if group exists
    let g := GetGroupByName api authenticatedUser org groupName s
    match g.result with
    | .error err => ⟨.error err, g.state, g.trace⟩
    | .ok group =>
      -- Check restrictions
      let a := api.GetAuthorizedGroups authenticatedUser group.Urn
        .GROUP_ACTION_ATTACH_GROUP_POLICY [group] g.state
      let t1 := g.trace ++ [Call.GetAuthorizedGroups authenticatedUser group.Urn
        .GROUP_ACTION_ATTACH_GROUP_POLICY [group] a.1]
      match a.1 with
      | .error err => ⟨.error err, a.2, t1⟩
      | .ok groupsFiltered =>
        if groupsFiltered.length < 1 then
          ⟨.error ⟨.UNAUTHORIZED_RESOURCES_ERROR,
            notAllowedMessage authenticatedUser.Identifier group.Urn⟩, a.2, t1⟩
        else
          -- Check if policy exists
          let p := api.GetPolicyByName authenticatedUser org policyName a.2
          let t2 := t1 ++ [Call.GetPolicyByName authenticatedUser org policyName p.1]
          match p.1 with
          | .error err => ⟨.error err, p.2, t2⟩
          | .ok policy =>
            -- Check existing relationship
            let m := api.GroupRepo.IsAttachedToGroup group.ID policy.ID p.2
            let t3 := t2 ++ [Call.RepoIsAttachedToGroup group.ID policy.ID m.1]
            match m.1 with
            | .error dbError => ⟨.error ⟨.UNKNOWN_API_ERROR, dbError.Message⟩, m.2, t3⟩
            | .ok isAttached =>
              if isAttached then
                ⟨.error ⟨.POLICY_IS_ALREADY_ATTACHED_TO_GROUP,
                  "Policy: " ++ policy.Name ++ " is already attached to Group: "
                    ++ group.Name⟩, m.2, t3⟩
              else
                -- Attach Policy to Group
                let w := api.GroupRepo.AttachPolicy group.ID policy.ID m.2
                let t4 := t3 ++ [Call.RepoAttachPolicy group.ID policy.ID w.1]
                match w.1 with
                | some dbError => ⟨.error ⟨.UNKNOWN_API_ERROR, dbError.Message⟩, w.2, t4⟩
                | none => ⟨.ok (), w.2, t4⟩

/-- Method `AuthAPI.DetachPolicyToGroup`. -/
def DetachPolicyToGroup (api : AuthAPI σ) (authenticatedUser : AuthenticatedUser)
    (org groupName policyName : String) (s : σ) : Res σ Unit :=
  -- Validate fields
  if !api.IsValidName groupName then
    ⟨.error ⟨.INVALID_PARAMETER_ERROR, "Invalid parameter: Group name " ++ groupName⟩, s, []⟩
  else if !api.IsValidOrg org then
    ⟨.error ⟨.INVALID_PARAMETER_ERROR, "Invalid parameter: org " ++ org⟩, s, []⟩
  else if !api.IsValidName policyName then
    ⟨.error ⟨.INVALID_PARAMETER_ERROR, "Invalid parameter: Policy name " ++ policyName⟩, s, []⟩
  else
    -- Check if group exists
    let g := GetGroupByName api authenticatedUser org groupName s
    match g.result with
    | .error err => ⟨.error err, g.state, g.trace⟩
    | .ok group =>
      -- Check restrictions
      let a := api.GetAuthorizedGroups authenticatedUser group.Urn
        .GROUP_ACTION_DETACH_GROUP_POLICY [group] g.state
      let t1 := g.trace ++ [Call.GetAuthorizedGroups authenticatedUser group.Urn
        .GROUP_ACTION_DETACH_GROUP_POLICY [group] a.1]
      match a.1 with
      | .error err => ⟨.error err, a.2, t1⟩
      | .ok groupsFiltered =>
        if groupsFiltered.length < 1 then
          ⟨.error ⟨.UNAUTHORIZED_RESOURCES_ERROR,
            notAllowedMessage authenticatedUser.Identifier group.Urn⟩, a.2, t1⟩
        else
          -- Check if policy exists
          let p := api.GetPolicyByName authenticatedUser org policyName a.2
          let t2 := t1 ++ [Call.GetPolicyByName authenticatedUser org policyName p.1]
          match p.1 with
          | .error err => ⟨.error err, p.2, t2⟩
          | .ok policy =>
            -- Check existing relationship
            let m := api.GroupRepo.IsAttachedToGroup group.ID policy.ID p.2
            let t3 := t2 ++ [Call.RepoIsAttachedToGroup group.ID policy.ID m.1]
            match m.1 with
            | .error dbError => ⟨.error ⟨.UNKNOWN_API_ERROR, dbError.Message⟩, m.2, t3⟩
            | .ok isAttached =>
              if !isAttached then
                ⟨.error ⟨.POLICY_IS_NOT_ATTACHED_TO_GROUP,
                  "Policy with org " ++ policy.Org ++ " and name " ++ policy.Name
                    ++ " is not attached to group with org " ++ group.Org
                    ++ " and name " ++ group.Name⟩, m.2, t3⟩
              else
                -- Detach Policy to Group
                let w := api.GroupRepo.DetachPolicy group.ID policy.ID m.2
                let t4 := t3 ++ [Call.RepoDetachPolicy group.ID policy.ID w.1]
                match w.1 with
                | some dbError => ⟨.error ⟨.UNKNOWN_API_ERROR, dbError.Message⟩, w.2, t4⟩
                | none => ⟨.ok (), w.2, t4⟩

/-- Method `AuthAPI.ListAttachedGroupPolicies`.  The loop appending `p.Name`
for each attached policy is a `map`. -/
def ListAttachedGroupPolicies (api : AuthAPI σ) (authenticatedUser : AuthenticatedUser)
    (org groupName : String) (s : σ) : Res σ (Slice String) :=
  -- Validate fields
  if !api.IsValidName groupName then
    ⟨.error ⟨.INVALID_PARAMETER_ERROR, "Invalid parameter: name " ++ groupName⟩, s, []⟩
  else if !api.IsValidOrg org then
    ⟨.error ⟨.INVALID_PARAMETER_ERROR, "Invalid parameter: org " ++ org⟩, s, []⟩
  else
    -- Check if group exists
    let g := GetGroupByName api authenticatedUser org groupName s
    match g.result with
    | .error err => ⟨.error err, g.state, g.trace⟩
    | .ok group =>
      -- Check restrictions
      let a := api.GetAuthorizedGroups authenticatedUser group.Urn
        .GROUP_ACTION_LIST_ATTACHED_GROUP_POLICIES [group] g.state
      let t1 := g.trace ++ [Call.GetAuthorizedGroups authenticatedUser group.Urn
        .GROUP_ACTION_LIST_ATTACHED_GROUP_POLICIES [group] a.1]
      match a.1 with
      | .error err => ⟨.error err, a.2, t1⟩
      | .ok groupsFiltered =>
        if groupsFiltered.length < 1 then
          ⟨.error ⟨.UNAUTHORIZED_RESOURCES_ERROR,
            notAllowedMessage authenticatedUser.Identifier group.Urn⟩, a.2, t1⟩
        else
          -- Call repo to retrieve the GroupPolicyRelations
          let m := api.GroupRepo.GetAttachedPolicies group.ID a.2
          let t2 := t1 ++ [Call.RepoGetAttachedPolicies group.ID m.1]
          match m.1 with
          | .error dbError => ⟨.error ⟨.UNKNOWN_API_ERROR, dbError.Message⟩, m.2, t2⟩
          | .ok attachedPolicies =>
            let policyIDs : Slice String := .mk []
            ⟨.ok (attachedPolicies.foldl (fun policyIDs p => policyIDs.append p.Name)
              policyIDs), m.2, t2⟩

/-! ## All operations at once -/

/-- An invocation of one operation of `group.go`, with its arguments (the
caller apart). -/
inductive Op where
  | AddGroup (org name path : String)
  | AddMember (userID groupName org : String)
  | RemoveMember (userID groupName org : String)
  | ListMembers (org groupName : String)
  | RemoveGroup (org name : String)
  | GetGroupByName (org name : String)
  | GetGroupList (org pathPrefix : String)
  | UpdateGroup (org groupName newName newPath : String)
  | AttachPolicyToGroup (org groupName policyName : String)
  | DetachPolicyToGroup (org groupName policyName : String)
  | ListAttachedGroupPolicies (org groupName : String)
  deriving DecidableEq, Repr

/-- Value an operation returns next to a nil error. -/
inductive Value where
  | group (g : Group)
  | names (l : List String)
  | identities (l : List GroupIdentity)
  | none
  deriving DecidableEq, Repr

/-- Outcome seen through `Value`. -/
def Res.as {α : Type} (f : α → Value) (r : Res σ α) : Res σ Value :=
  ⟨r.result.map f, r.state, r.trace⟩

/-- Invocation `op` by `authenticatedUser` in world `s`. -/
def run (api : AuthAPI σ) (authenticatedUser : AuthenticatedUser) (op : Op) (s : σ) :
    Res σ Value :=
  match op with
  | .AddGroup org name path => (AddGroup api authenticatedUser org name path s).as .group
  | .AddMember userID groupName org =>
    (AddMember api authenticatedUser userID groupName org s).as fun _ => .none
  | .RemoveMember userID groupName org =>
    (RemoveMember api authenticatedUser userID groupName org s).as fun _ => .none
  | .ListMembers org groupName =>
    (ListMembers api authenticatedUser org groupName s).as fun ids => .names ids.toList
  | .RemoveGroup org name => (RemoveGroup api authenticatedUser org name s).as fun _ => .none
  | .GetGroupByName org name => (GetGroupByName api authenticatedUser org name s).as .group
  | .GetGroupList org pathPrefix =>
    (GetGroupList api authenticatedUser org pathPrefix s).as fun ids => .identities ids.toList
  | .UpdateGroup org groupName newName newPath =>
    (UpdateGroup api authenticatedUser org groupName newName newPath s).as .group
  | .AttachPolicyToGroup org groupName policyName =>
    (AttachPolicyToGroup api authenticatedUser org groupName policyName s).as fun _ => .none
  | .DetachPolicyToGroup org groupName policyName =>
    (DetachPolicyToGroup api authenticatedUser org groupName policyName s).as fun _ => .none
  | .ListAttachedGroupPolicies org groupName =>
    (ListAttachedGroupPolicies api authenticatedUser org groupName s).as fun ids =>
      .names ids.toList

/-- Field checks an operation makes itself, before its first collaborator
call (`UpdateGroup` leaves `groupName` to `GetGroupByName`). -/
def ownChecks (api : AuthAPI σ) : Op → Bool
  | .AddGroup org name path => api.IsValidName name && api.IsValidOrg org && api.IsValidPath path
  | .AddMember userID groupName org =>
    api.IsValidUserExternalID userID && api.IsValidOrg org && api.IsValidName groupName
  | .RemoveMember userID groupName org =>
    api.IsValidUserExternalID userID && api.IsValidOrg org && api.IsValidName groupName
  | .ListMembers org groupName => api.IsValidName groupName && api.IsValidOrg org
  | .RemoveGroup org name => api.IsValidName name && api.IsValidOrg org
  | .GetGroupByName org name => api.IsValidName name && api.IsValidOrg org
  | .GetGroupList org pathPrefix =>
    (org.length = 0 || api.IsValidOrg org) && (pathPrefix.length = 0 || api.IsValidPath pathPrefix)
  | .UpdateGroup org _ newName newPath =>
    api.IsValidName newName && api.IsValidOrg org && api.IsValidPath newPath
  | .AttachPolicyToGroup org groupName policyName =>
    api.IsValidName groupName && api.IsValidOrg org && api.IsValidName policyName
  | .DetachPolicyToGroup org groupName policyName =>
    api.IsValidName groupName && api.IsValidOrg org && api.IsValidName policyName
  | .ListAttachedGroupPolicies org groupName => api.IsValidName groupName && api.IsValidOrg org

/-! ## Execution paths

Every execution of an operation follows one of finitely many paths; a path
fixes the result and the trace in terms of the collaborators' answers. -/

/-- Trace of `GetGroupByName` when the repository holds `g`: the lookup, then
the filter asked about `g`. -/
def lookupTrace (u : AuthenticatedUser) (org name : String) (g : Group)
    (ret : Except Error (List Group)) : List Call :=
  [Call.RepoGetGroupByName org name (.ok g),
   Call.GetAuthorizedGroups u g.Urn .GROUP_ACTION_GET_GROUP [g] ret]

/-- Trace of the opening shared by the operations on an existing group:
`GetGroupByName` returning `g`, then the filter asked for `action` on `g`. -/
def openingTrace (u : AuthenticatedUser) (org name : String) (action : Action)
    (g0 g : Group) (rest : List Group) (ret : Except Error (List Group)) : List Call :=
  lookupTrace u org name g0 (.ok (g :: rest)) ++
    [Call.GetAuthorizedGroups u g.Urn action [g] ret]

/-- Paths of `GetGroupByName`. -/
inductive GetGroupByNamePath (api : AuthAPI σ) (u : AuthenticatedUser) (org name : String) :
    Except Error Group → List Call → Prop where
  | invalid (m : String) : (api.IsValidName name && api.IsValidOrg org) = false →
    GetGroupByNamePath api u org name (.error ⟨.INVALID_PARAMETER_ERROR, m⟩) []
  | notFound (dbe : DBError) : (api.IsValidName name && api.IsValidOrg org) = true →
    dbe.Code = .GROUP_NOT_FOUND →
    GetGroupByNamePath api u org name
      (.error ⟨.GROUP_BY_ORG_AND_NAME_NOT_FOUND, dbe.Message⟩)
      [Call.RepoGetGroupByName org name (.error dbe)]
  | repoFailed (dbe : DBError) : (api.IsValidName name && api.IsValidOrg org) = true →
    dbe.Code ≠ .GROUP_NOT_FOUND →
    GetGroupByNamePath api u org name (.error ⟨.UNKNOWN_API_ERROR, dbe.Message⟩)
      [Call.RepoGetGroupByName org name (.error dbe)]
  | filterFailed (g : Group) (e : Error) :
    (api.IsValidName name && api.IsValidOrg org) = true →
    GetGroupByNamePath api u org name (.error e) (lookupTrace u org name g (.error e))
  | denied (g : Group) : (api.IsValidName name && api.IsValidOrg org) = true →
    GetGroupByNamePath api u org name
      (.error ⟨.UNAUTHORIZED_RESOURCES_ERROR, notAllowedMessage u.Identifier g.Urn⟩)
      (lookupTrace u org name g (.ok []))
  | found (g g0 : Group) (rest : List Group) :
    (api.IsValidName name && api.IsValidOrg org) = true →
    GetGroupByNamePath api u org name (.ok g0) (lookupTrace u org name g (.ok (g0 :: rest)))

/-- Paths of the shared opening, started in world `s`, that end in an error;
`g` is the group `GetGroupByName` returned. -/
inductive Refused (api : AuthAPI σ) (u : AuthenticatedUser) (s : σ) (org name : String)
    (action : Action) : Error → List Call → Prop where
  | lookup (e : Error) (t : List Call) :
    GetGroupByNamePath api u org name (.error e) t → Refused api u s org name action e t
  | filterFailed (g0 g : Group) (rest : List Group) (e : Error) :
    (api.IsValidName name && api.IsValidOrg org) = true →
    (GetGroupByName api u org name s).result = .ok g →
    Refused api u s org name action e (openingTrace u org name action g0 g rest (.error e))
  | denied (g0 g : Group) (rest : List Group) :
    (api.IsValidName name && api.IsValidOrg org) = true →
    (GetGroupByName api u org name s).result = .ok g →
    Refused api u s org name action
      ⟨.UNAUTHORIZED_RESOURCES_ERROR, notAllowedMessage u.Identifier g.Urn⟩
      (openingTrace u org name action g0 g rest (.ok []))

/-- The lookup of the new name lets `UpdateGroup` go on: it found the group
being updated, or it failed with a code other than the two that stop. -/
def nameFree (group : Group) : Except Error Group → Prop
  | .ok newGroup => group.ID = newGroup.ID
  | .error apiError =>
    apiError.Code ≠ .UNAUTHORIZED_RESOURCES_ERROR ∧ apiError.Code ≠ .UNKNOWN_API_ERROR

/-- Paths of the operations of `group.go`, started by `u` in world `s`. -/
inductive RunPath (api : AuthAPI σ) (u : AuthenticatedUser) (s : σ) :
    Op → Except Error Value → List Call → Prop where
  /- field validation of the operation itself (`GetGroupByName`: see its paths) -/
  | invalid (op : Op) (m : String) : ownChecks api op = false →
    RunPath api u s op (.error ⟨.INVALID_PARAMETER_ERROR, m⟩) []
  /- GetGroupByName -/
  | getGroupByName (org name : String) (r : Except Error Group) (t : List Call) :
    GetGroupByNamePath api u org name r t →
    RunPath api u s (.GetGroupByName org name) (r.map .group) t
  /- AddGroup -/
  | addGroup_filterFailed (org name path : String) (e : Error) :
    ownChecks api (.AddGroup org name path) = true →
    RunPath api u s (.AddGroup org name path) (.error e)
      [Call.GetAuthorizedGroups u (createGroup api org name path s).1.Urn
        .GROUP_ACTION_CREATE_GROUP [(createGroup api org name path s).1] (.error e)]
  | addGroup_denied (org name path : String) :
    ownChecks api (.AddGroup org name path) = true →
    RunPath api u s (.AddGroup org name path)
      (.error ⟨.UNAUTHORIZED_RESOURCES_ERROR,
        notAllowedMessage u.Identifier (createGroup api org name path s).1.Urn⟩)
      [Call.GetAuthorizedGroups u (createGroup api org name path s).1.Urn
        .GROUP_ACTION_CREATE_GROUP [(createGroup api org name path s).1] (.ok [])]
  | addGroup_exists (org name path m : String) (gs : List Group) (g : Group) :
    ownChecks api (.AddGroup org name path) = true → gs ≠ [] →
    RunPath api u s (.AddGroup org name path) (.error ⟨.GROUP_ALREADY_EXIST, m⟩)
      [Call.GetAuthorizedGroups u (createGroup api org name path s).1.Urn
        .GROUP_ACTION_CREATE_GROUP [(createGroup api org name path s).1] (.ok gs),
       Call.RepoGetGroupByName org name (.ok g)]
  | addGroup_lookupFailed (org name path : String) (gs : List Group) (dbe : DBError) :
    ownChecks api (.AddGroup org name path) = true → gs ≠ [] →
    dbe.Code ≠ .GROUP_NOT_FOUND →
    RunPath api u s (.AddGroup org name path) (.error ⟨.UNKNOWN_API_ERROR, dbe.Message⟩)
      [Call.GetAuthorizedGroups u (createGroup api org name path s).1.Urn
        .GROUP_ACTION_CREATE_GROUP [(createGroup api org name path s).1] (.ok gs),
       Call.RepoGetGroupByName org name (.error dbe)]
  | addGroup_writeFailed (org name path : String) (gs : List Group) (dbe dbe2 : DBError) :
    ownChecks api (.AddGroup org name path) = true → gs ≠ [] →
    dbe.Code = .GROUP_NOT_FOUND →
    RunPath api u s (.AddGroup org name path) (.error ⟨.UNKNOWN_API_ERROR, dbe2.Message⟩)
      [Call.GetAuthorizedGroups u (createGroup api org name path s).1.Urn
        .GROUP_ACTION_CREATE_GROUP [(createGroup api org name path s).1] (.ok gs),
       Call.RepoGetGroupByName org name (.error dbe),
       Call.RepoAddGroup (createGroup api org name path s).1 (.error dbe2)]
  | addGroup_done (org name path : String) (gs : List Group) (dbe : DBError)
    (createdGroup : Group) :
    ownChecks api (.AddGroup org name path) = true → gs ≠ [] →
    dbe.Code = .GROUP_NOT_FOUND →
    RunPath api u s (.AddGroup org name path) (.ok (.group createdGroup))
      [Call.GetAuthorizedGroups u (createGroup api org name path s).1.Urn
        .GROUP_ACTION_CREATE_GROUP [(createGroup api org name path s).1] (.ok gs),
       Call.RepoGetGroupByName org name (.error dbe),
       Call.RepoAddGroup (createGroup api org name path s).1 (.ok createdGroup)]
  /- GetGroupList; `p` is the path prefix handed on -/
  | getGroupList_repoFailed (org pathPrefix p : String) (dbe : DBError) :
    ownChecks api (.GetGroupList org pathPrefix) = true →
    p = (if pathPrefix.length = 0 then "/" else pathPrefix) →
    RunPath api u s (.GetGroupList org pathPrefix) (.error ⟨.UNKNOWN_API_ERROR, dbe.Message⟩)
      [Call.RepoGetGroupsFiltered org p (.error dbe)]
  | getGroupList_filterFailed (org pathPrefix p : String) (groups : List Group) (e : Error) :
    ownChecks api (.GetGroupList org pathPrefix) = true →
    p = (if pathPrefix.length = 0 then "/" else pathPrefix) →
    RunPath api u s (.GetGroupList org pathPrefix) (.error e)
      [Call.RepoGetGroupsFiltered org p (.ok groups),
       Call.GetAuthorizedGroups u
        (if org.length = 0 then "*" else api.GetUrnPrefix org api.RESOURCE_GROUP p)
        .GROUP_ACTION_LIST_GROUPS groups (.error e)]
  | getGroupList_done (org pathPrefix p : String) (groups filteredGroups : List Group) :
    ownChecks api (.GetGroupList org pathPrefix) = true →
    p = (if pathPrefix.length = 0 then "/" else pathPrefix) →
    RunPath api u s (.GetGroupList org pathPrefix)
      (.ok (.identities (filteredGroups.map fun g => { Org := g.Org, Name := g.Name })))
      [Call.RepoGetGroupsFiltered org p (.ok groups),
       Call.GetAuthorizedGroups u
        (if org.length = 0 then "*" else api.GetUrnPrefix org api.RESOURCE_GROUP p)
        .GROUP_ACTION_LIST_GROUPS groups (.ok filteredGroups)]
  /- RemoveGroup -/
  | removeGroup_refused (org name : String) (e : Error) (t : List Call) :
    ownChecks api (.RemoveGroup org name) = true →
    Refused api u s org name .GROUP_ACTION_DELETE_GROUP e t →
    RunPath api u s (.RemoveGroup org name) (.error e) t
  | removeGroup_writeFailed (org name : String) (g0 g : Group) (rest gs : List Group)
    (dbe : DBError) :
    ownChecks api (.RemoveGroup org name) = true → gs ≠ [] →
    RunPath api u s (.RemoveGroup org name) (.error ⟨.UNKNOWN_API_ERROR, dbe.Message⟩)
      (openingTrace u org name .GROUP_ACTION_DELETE_GROUP g0 g rest (.ok gs) ++
        [Call.RepoRemoveGroup g.ID (some dbe)])
  | removeGroup_done (org name : String) (g0 g : Group) (rest gs : List Group) :
    ownChecks api (.RemoveGroup org name) = true → gs ≠ [] →
    RunPath api u s (.RemoveGroup org name) (.ok .none)
      (openingTrace u org name .GROUP_ACTION_DELETE_GROUP g0 g rest (.ok gs) ++
        [Call.RepoRemoveGroup g.ID none])
  /- ListMembers -/
  | listMembers_refused (org groupName : String) (e : Error) (t : List Call) :
    ownChecks api (.ListMembers org groupName) = true →
    Refused api u s org groupName .GROUP_ACTION_LIST_MEMBERS e t →
    RunPath api u s (.ListMembers org groupName) (.error e) t
  | listMembers_repoFailed (org groupName : String) (g0 g : Group) (rest gs : List Group)
    (dbe : DBError) :
    ownChecks api (.ListMembers org groupName) = true → gs ≠ [] →
    RunPath api u s (.ListMembers org groupName) (.error ⟨.UNKNOWN_API_ERROR, dbe.Message⟩)
      (openingTrace u org groupName .GROUP_ACTION_LIST_MEMBERS g0 g rest (.ok gs) ++
        [Call.RepoGetGroupMembers g.ID (.error dbe)])
  | listMembers_done (org groupName : String) (g0 g : Group) (rest gs : List Group)
    (members : List User) :
    ownChecks api (.ListMembers org groupName) = true → gs ≠ [] →
    RunPath api u s (.ListMembers org groupName)
      (.ok (.names (members.map fun m => m.ExternalID)))
      (openingTrace u org groupName .GROUP_ACTION_LIST_MEMBERS g0 g rest (.ok gs) ++
        [Call.RepoGetGroupMembers g.ID (.ok members)])
  /- ListAttachedGroupPolicies -/
  | listAttached_refused (org groupName : String) (e : Error) (t : List Call) :
    ownChecks api (.ListAttachedGroupPolicies org groupName) = true →
    Refused api u s org groupName .GROUP_ACTION_LIST_ATTACHED_GROUP_POLICIES e t →
    RunPath api u s (.ListAttachedGroupPolicies org groupName) (.error e) t
  | listAttached_repoFailed (org groupName : String) (g0 g : Group) (rest gs : List Group)
    (dbe : DBError) :
    ownChecks api (.ListAttachedGroupPolicies org groupName) = true → gs ≠ [] →
    RunPath api u s (.ListAttachedGroupPolicies org groupName)
      (.error ⟨.UNKNOWN_API_ERROR, dbe.Message⟩)
      (openingTrace u org groupName .GROUP_ACTION_LIST_ATTACHED_GROUP_POLICIES g0 g rest
        (.ok gs) ++ [Call.RepoGetAttachedPolicies g.ID (.error dbe)])
  | listAttached_done (org groupName : String) (g0 g : Group) (rest gs : List Group)
    (attachedPolicies : List Policy) :
    ownChecks api (.ListAttachedGroupPolicies org groupName) = true → gs ≠ [] →
    RunPath api u s (.ListAttachedGroupPolicies org groupName)
      (.ok (.names (attachedPolicies.map fun p => p.Name)))
      (openingTrace u org groupName .GROUP_ACTION_LIST_ATTACHED_GROUP_POLICIES g0 g rest
        (.ok gs) ++ [Call.RepoGetAttachedPolicies g.ID (.ok attachedPolicies)])
  /- AddMember -/
  | addMember_refused (userID groupName org : String) (e : Error) (t : List Call) :
    ownChecks api (.AddMember userID groupName org) = true →
    Refused api u s org groupName .GROUP_ACTION_ADD_MEMBER e t →
    RunPath api u s (.AddMember userID groupName org) (.error e) t
  | addMember_userFailed (userID groupName org : String) (g0 g : Group)
    (rest gs : List Group) (e : Error) :
    ownChecks api (.AddMember userID groupName org) = true →
    (GetGroupByName api u org groupName s).result = .ok g → gs ≠ [] →
    RunPath api u s (.AddMember userID groupName org) (.error e)
      (openingTrace u org groupName .GROUP_ACTION_ADD_MEMBER g0 g rest (.ok gs) ++
        [Call.GetUserByExternalId u userID (.error e)])
  | addMember_relationFailed (userID groupName org : String) (g0 g : Group)
    (rest gs : List Group) (usr : User) (dbe : DBError) :
    ownChecks api (.AddMember userID groupName org) = true →
    (GetGroupByName api u org groupName s).result = .ok g → gs ≠ [] →
    RunPath api u s (.AddMember userID groupName org)
      (.error ⟨.UNKNOWN_API_ERROR, dbe.Message⟩)
      (openingTrace u org groupName .GROUP_ACTION_ADD_MEMBER g0 g rest (.ok gs) ++
        [Call.GetUserByExternalId u userID (.ok usr),
         Call.RepoIsMemberOfGroup usr.ID g.ID (.error dbe)])
  | addMember_already (userID groupName org m : String) (g0 g : Group)
    (rest gs : List Group) (usr : User) :
    ownChecks api (.AddMember userID groupName org) = true →
    (GetGroupByName api u org groupName s).result = .ok g → gs ≠ [] →
    RunPath api u s (.AddMember userID groupName org)
      (.error ⟨.USER_IS_ALREADY_A_MEMBER_OF_GROUP, m⟩)
      (openingTrace u org groupName .GROUP_ACTION_ADD_MEMBER g0 g rest (.ok gs) ++
        [Call.GetUserByExternalId u userID (.ok usr),
         Call.RepoIsMemberOfGroup usr.ID g.ID (.ok true)])
  | addMember_writeFailed (userID groupName org : String) (g0 g : Group)
    (rest gs : List Group) (usr : User) (dbe : DBError) :
    ownChecks api (.AddMember userID groupName org) = true →
    (GetGroupByName api u org groupName s).result = .ok g → gs ≠ [] →
    RunPath api u s (.AddMember userID groupName org)
      (.error ⟨.UNKNOWN_API_ERROR, dbe.Message⟩)
      (openingTrace u org groupName .GROUP_ACTION_ADD_MEMBER g0 g rest (.ok gs) ++
        [Call.GetUserByExternalId u userID (.ok usr),
         Call.RepoIsMemberOfGroup usr.ID g.ID (.ok false),
         Call.RepoAddMember usr.ID g.ID (some dbe)])
  | addMember_done (userID groupName org : String) (g0 g : Group)
    (rest gs : List Group) (usr : User) :
    ownChecks api (.AddMember userID groupName org) = true →
    (GetGroupByName api u org groupName s).result = .ok g → gs ≠ [] →
    RunPath api u s (.AddMember userID groupName org) (.ok .none)
      (openingTrace u org groupName .GROUP_ACTION_ADD_MEMBER g0 g rest (.ok gs) ++
        [Call.GetUserByExternalId u userID (.ok usr),
         Call.RepoIsMemberOfGroup usr.ID g.ID (.ok false),
         Call.RepoAddMember usr.ID g.ID none])
  /- RemoveMember -/
  | removeMember_refused (userID groupName org : String) (e : Error) (t : List Call) :
    ownChecks api (.RemoveMember userID groupName org) = true →
    Refused api u s org groupName .GROUP_ACTION_REMOVE_MEMBER e t →
    RunPath api u s (.RemoveMember userID groupName org) (.error e) t
  | removeMember_userFailed (userID groupName org : String) (g0 g : Group)
    (rest gs : List Group) (e : Error) :
    ownChecks api (.RemoveMember userID groupName org) = true →
    (GetGroupByName api u org groupName s).result = .ok g → gs ≠ [] →
    RunPath api u s (.RemoveMember userID groupName org) (.error e)
      (openingTrace u org groupName .GROUP_ACTION_REMOVE_MEMBER g0 g rest (.ok gs) ++
        [Call.GetUserByExternalId u userID (.error e)])
  | removeMember_relationFailed (userID groupName org : String) (g0 g : Group)
    (rest gs : List Group) (usr : User) (dbe : DBError) :
    ownChecks api (.RemoveMember userID groupName org) = true →
    (GetGroupByName api u org groupName s).result = .ok g → gs ≠ [] →
    RunPath api u s (.RemoveMember userID groupName org)
      (.error ⟨.UNKNOWN_API_ERROR, dbe.Message⟩)
      (openingTrace u org groupName .GROUP_ACTION_REMOVE_MEMBER g0 g rest (.ok gs) ++
        [Call.GetUserByExternalId u userID (.ok usr),
         Call.RepoIsMemberOfGroup usr.ID g.ID (.error dbe)])
  | removeMember_notMember (userID groupName org m : String) (g0 g : Group)
    (rest gs : List Group) (usr : User) :
    ownChecks api (.RemoveMember userID groupName org) = true →
    (GetGroupByName api u org groupName s).result = .ok g → gs ≠ [] →
    RunPath api u s (.RemoveMember userID groupName org)
      (.error ⟨.USER_IS_NOT_A_MEMBER_OF_GROUP, m⟩)
      (openingTrace u org groupName .GROUP_ACTION_REMOVE_MEMBER g0 g rest (.ok gs) ++
        [Call.GetUserByExternalId u userID (.ok usr),
         Call.RepoIsMemberOfGroup usr.ID g.ID (.ok false)])
  | removeMember_writeFailed (userID groupName org : String) (g0 g : Group)
    (rest gs : List Group) (usr : User) (dbe : DBError) :
    ownChecks api (.RemoveMember userID groupName org) = true →
    (GetGroupByName api u org groupName s).result = .ok g → gs ≠ [] →
    RunPath api u s (.RemoveMember userID groupName org)
      (.error ⟨.UNKNOWN_API_ERROR, dbe.Message⟩)
      (openingTrace u org groupName .GROUP_ACTION_REMOVE_MEMBER g0 g rest (.ok gs) ++
        [Call.GetUserByExternalId u userID (.ok usr),
         Call.RepoIsMemberOfGroup usr.ID g.ID (.ok true),
         Call.RepoRemoveMember usr.ID g.ID (some dbe)])
  | removeMember_done (userID groupName org : String) (g0 g : Group)
    (rest gs : List Group) (usr : User) :
    ownChecks api (.RemoveMember userID groupName org) = true →
    (GetGroupByName api u org groupName s).result = .ok g → gs ≠ [] →
    RunPath api u s (.RemoveMember userID groupName org) (.ok .none)
      (openingTrace u org groupName .GROUP_ACTION_REMOVE_MEMBER g0 g rest (.ok gs) ++
        [Call.GetUserByExternalId u userID (.ok usr),
         Call.RepoIsMemberOfGroup usr.ID g.ID (.ok true),
         Call.RepoRemoveMember usr.ID g.ID none])
  /- AttachPolicyToGroup -/
  | attach_refused (org groupName policyName : String) (e : Error) (t : List Call) :
    ownChecks api (.AttachPolicyToGroup org groupName policyName) = true →
    Refused api u s org groupName .GROUP_ACTION_ATTACH_GROUP_POLICY e t →
    RunPath api u s (.AttachPolicyToGroup org groupName policyName) (.error e) t
  | attach_policyFailed (org groupName policyName : String) (g0 g : Group)
    (rest gs : List Group) (e : Error) :
    ownChecks api (.AttachPolicyToGroup org groupName policyName) = true →
    (GetGroupByName api u org groupName s).result = .ok g → gs ≠ [] →
    RunPath api u s (.AttachPolicyToGroup org groupName policyName) (.error e)
      (openingTrace u org groupName .GROUP_ACTION_ATTACH_GROUP_POLICY g0 g rest (.ok gs) ++
        [Call.GetPolicyByName u org policyName (.error e)])
  | attach_relationFailed (org groupName policyName : String) (g0 g : Group)
    (rest gs : List Group) (policy : Policy) (dbe : DBError) :
    ownChecks api (.AttachPolicyToGroup org groupName policyName) = true →
    (GetGroupByName api u org groupName s).result = .ok g → gs ≠ [] →
    RunPath api u s (.AttachPolicyToGroup org groupName policyName)
      (.error ⟨.UNKNOWN_API_ERROR, dbe.Message⟩)
      (openingTrace u org groupName .GROUP_ACTION_ATTACH_GROUP_POLICY g0 g rest (.ok gs) ++
        [Call.GetPolicyByName u org policyName (.ok policy),
         Call.RepoIsAttachedToGroup g.ID policy.ID (.error dbe)])
  | attach_already (org groupName policyName m : String) (g0 g : Group)
    (rest gs : List Group) (policy : Policy) :
    ownChecks api (.AttachPolicyToGroup org groupName policyName) = true →
    (GetGroupByName api u org groupName s).result = .ok g → gs ≠ [] →
    RunPath api u s (.AttachPolicyToGroup org groupName policyName)
      (.error ⟨.POLICY_IS_ALREADY_ATTACHED_TO_GROUP, m⟩)
      (openingTrace u org groupName .GROUP_ACTION_ATTACH_GROUP_POLICY g0 g rest (.ok gs) ++
        [Call.GetPolicyByName u org policyName (.ok policy),
         Call.RepoIsAttachedToGroup g.ID policy.ID (.ok true)])
  | attach_writeFailed (org groupName policyName : String) (g0 g : Group)
    (rest gs : List Group) (policy : Policy) (dbe : DBError) :
    ownChecks api (.AttachPolicyToGroup org groupName policyName) = true →
    (GetGroupByName api u org groupName s).result = .ok g → gs ≠ [] →
    RunPath api u s (.AttachPolicyToGroup org groupName policyName)
      (.error ⟨.UNKNOWN_API_ERROR, dbe.Message⟩)
      (openingTrace u org groupName .GROUP_ACTION_ATTACH_GROUP_POLICY g0 g rest (.ok gs) ++
        [Call.GetPolicyByName u org policyName (.ok policy),
         Call.RepoIsAttachedToGroup g.ID policy.ID (.ok false),
         Call.RepoAttachPolicy g.ID policy.ID (some dbe)])
  | attach_done (org groupName policyName : String) (g0 g : Group)
    (rest gs : List Group) (policy : Policy) :
    ownChecks api (.AttachPolicyToGroup org groupName policyName) = true →
    (GetGroupByName api u org groupName s).result = .ok g → gs ≠ [] →
    RunPath api u s (.AttachPolicyToGroup org groupName policyName) (.ok .none)
      (openingTrace u org groupName .GROUP_ACTION_ATTACH_GROUP_POLICY g0 g rest (.ok gs) ++
        [Call.GetPolicyByName u org policyName (.ok policy),
         Call.RepoIsAttachedToGroup g.ID policy.ID (.ok false),
         Call.RepoAttachPolicy g.ID policy.ID none])
  /- DetachPolicyToGroup -/
  | detach_refused (org groupName policyName : String) (e : Error) (t : List Call) :
    ownChecks api (.DetachPolicyToGroup org groupName policyName) = true →
    Refused api u s org groupName .GROUP_ACTION_DETACH_GROUP_POLICY e t →
    RunPath api u s (.DetachPolicyToGroup org groupName policyName) (.error e) t
  | detach_policyFailed (org groupName policyName : String) (g0 g : Group)
    (rest gs : List Group) (e : Error) :
    ownChecks api (.DetachPolicyToGroup org groupName policyName) = true →
    (GetGroupByName api u org groupName s).result = .ok g → gs ≠ [] →
    RunPath api u s (.DetachPolicyToGroup org groupName policyName) (.error e)
      (openingTrace u org groupName .GROUP_ACTION_DETACH_GROUP_POLICY g0 g rest (.ok gs) ++
        [Call.GetPolicyByName u org policyName (.error e)])
  | detach_relationFailed (org groupName policyName : String) (g0 g : Group)
    (rest gs : List Group) (policy : Policy) (dbe : DBError) :
    ownChecks api (.DetachPolicyToGroup org groupName policyName) = true →
    (GetGroupByName api u org groupName s).result = .ok g → gs ≠ [] →
    RunPath api u s (.DetachPolicyToGroup org groupName policyName)
      (.error ⟨.UNKNOWN_API_ERROR, dbe.Message⟩)
      (openingTrace u org groupName .GROUP_ACTION_DETACH_GROUP_POLICY g0 g rest (.ok gs) ++
        [Call.GetPolicyByName u org policyName (.ok policy),
         Call.RepoIsAttachedToGroup g.ID policy.ID (.error dbe)])
  | detach_notAttached (org groupName policyName m : String) (g0 g : Group)
    (rest gs : List Group) (policy : Policy) :
    ownChecks api (.DetachPolicyToGroup org groupName policyName) = true →
    (GetGroupByName api u org groupName s).result = .ok g → gs ≠ [] →
    RunPath api u s (.DetachPolicyToGroup org groupName policyName)
      (.error ⟨.POLICY_IS_NOT_ATTACHED_TO_GROUP, m⟩)
      (openingTrace u org groupName .GROUP_ACTION_DETACH_GROUP_POLICY g0 g rest (.ok gs) ++
        [Call.GetPolicyByName u org policyName (.ok policy),
         Call.RepoIsAttachedToGroup g.ID policy.ID (.ok false)])
  | detach_writeFailed (org groupName policyName : String) (g0 g : Group)
    (rest gs : List Group) (policy : Policy) (dbe : DBError) :
    ownChecks api (.DetachPolicyToGroup org groupName policyName) = true →
    (GetGroupByName api u org groupName s).result = .ok g → gs ≠ [] →
    RunPath api u s (.DetachPolicyToGroup org groupName policyName)
      (.error ⟨.UNKNOWN_API_ERROR, dbe.Message⟩)
      (openingTrace u org groupName .GROUP_ACTION_DETACH_GROUP_POLICY g0 g rest (.ok gs) ++
        [Call.GetPolicyByName u org policyName (.ok policy),
         Call.RepoIsAttachedToGroup g.ID policy.ID (.ok true),
         Call.RepoDetachPolicy g.ID policy.ID (some dbe)])
  | detach_done (org groupName policyName : String) (g0 g : Group)
    (rest gs : List Group) (policy : Policy) :
    ownChecks api (.DetachPolicyToGroup org groupName policyName) = true →
    (GetGroupByName api u org groupName s).result = .ok g → gs ≠ [] →
    RunPath api u s (.DetachPolicyToGroup org groupName policyName) (.ok .none)
      (openingTrace u org groupName .GROUP_ACTION_DETACH_GROUP_POLICY g0 g rest (.ok gs) ++
        [Call.GetPolicyByName u org policyName (.ok policy),
         Call.RepoIsAttachedToGroup g.ID policy.ID (.ok true),
         Call.RepoDetachPolicy g.ID policy.ID none])
  /- UpdateGroup; `g` is the group `GetGroupByName` returned for `groupName`,
  `r` and `tn` are the result and the trace of the lookup of `newName`, `s1` is
  the world in which the renamed group is built -/
  | update_refused (org groupName newName newPath : String) (e : Error) (t : List Call) :
    ownChecks api (.UpdateGroup org groupName newName newPath) = true →
    Refused api u s org groupName .GROUP_ACTION_UPDATE_GROUP e t →
    RunPath api u s (.UpdateGroup org groupName newName newPath) (.error e) t
  | update_exists (org groupName newName newPath m : String) (g0 g : Group)
    (rest gs : List Group) (newGroup : Group) (tn : List Call) :
    ownChecks api (.UpdateGroup org groupName newName newPath) = true →
    (GetGroupByName api u org groupName s).result = .ok g → gs ≠ [] →
    GetGroupByNamePath api u org newName (.ok newGroup) tn → g.ID ≠ newGroup.ID →
    RunPath api u s (.UpdateGroup org groupName newName newPath)
      (.error ⟨.GROUP_ALREADY_EXIST, m⟩)
      (openingTrace u org groupName .GROUP_ACTION_UPDATE_GROUP g0 g rest (.ok gs) ++ tn)
  | update_lookupFailed (org groupName newName newPath : String) (g0 g : Group)
    (rest gs : List Group) (e : Error) (tn : List Call) :
    ownChecks api (.UpdateGroup org groupName newName newPath) = true →
    (GetGroupByName api u org groupName s).result = .ok g → gs ≠ [] →
    GetGroupByNamePath api u org newName (.error e) tn →
    e.Code = .UNAUTHORIZED_RESOURCES_ERROR ∨ e.Code = .UNKNOWN_API_ERROR →
    RunPath api u s (.UpdateGroup org groupName newName newPath) (.error e)
      (openingTrace u org groupName .GROUP_ACTION_UPDATE_GROUP g0 g rest (.ok gs) ++ tn)
  | update_filterFailed (org groupName newName newPath : String) (g0 g : Group)
    (rest gs : List Group) (r : Except Error Group) (tn : List Call) (s1 : σ) (e : Error) :
    ownChecks api (.UpdateGroup org groupName newName newPath) = true →
    (GetGroupByName api u org groupName s).result = .ok g → gs ≠ [] →
    GetGroupByNamePath api u org newName r tn → nameFree g r →
    RunPath api u s (.UpdateGroup org groupName newName newPath) (.error e)
      (openingTrace u org groupName .GROUP_ACTION_UPDATE_GROUP g0 g rest (.ok gs) ++ tn ++
        [Call.GetAuthorizedGroups u (createGroup api org newName newPath s1).1.Urn
          .GROUP_ACTION_UPDATE_GROUP [(createGroup api org newName newPath s1).1] (.error e)])
  | update_denied (org groupName newName newPath : String) (g0 g : Group)
    (rest gs : List Group) (r : Except Error Group) (tn : List Call) (s1 : σ) :
    ownChecks api (.UpdateGroup org groupName newName newPath) = true →
    (GetGroupByName api u org groupName s).result = .ok g → gs ≠ [] →
    GetGroupByNamePath api u org newName r tn → nameFree g r →
    RunPath api u s (.UpdateGroup org groupName newName newPath)
      (.error ⟨.UNAUTHORIZED_RESOURCES_ERROR,
        notAllowedMessage u.Identifier (createGroup api org newName newPath s1).1.Urn⟩)
      (openingTrace u org groupName .GROUP_ACTION_UPDATE_GROUP g0 g rest (.ok gs) ++ tn ++
        [Call.GetAuthorizedGroups u (createGroup api org newName newPath s1).1.Urn
          .GROUP_ACTION_UPDATE_GROUP [(createGroup api org newName newPath s1).1] (.ok [])])
  | update_writeFailed (org groupName newName newPath : String) (g0 g : Group)
    (rest gs : List Group) (r : Except Error Group) (tn : List Call) (s1 : σ)
    (gs2 : List Group) (dbe : DBError) :
    ownChecks api (.UpdateGroup org groupName newName newPath) = true →
    (GetGroupByName api u org groupName s).result = .ok g → gs ≠ [] →
    GetGroupByNamePath api u org newName r tn → nameFree g r → gs2 ≠ [] →
    RunPath api u s (.UpdateGroup org groupName newName newPath)
      (.error ⟨.UNKNOWN_API_ERROR, dbe.Message⟩)
      (openingTrace u org groupName .GROUP_ACTION_UPDATE_GROUP g0 g rest (.ok gs) ++ tn ++
        [Call.GetAuthorizedGroups u (createGroup api org newName newPath s1).1.Urn
          .GROUP_ACTION_UPDATE_GROUP [(createGroup api org newName newPath s1).1] (.ok gs2),
         Call.RepoUpdateGroup g newName newPath (createGroup api org newName newPath s1).1.Urn
          (.error dbe)])
  | update_done (org groupName newName newPath : String) (g0 g : Group)
    (rest gs : List Group) (r : Except Error Group) (tn : List Call) (s1 : σ)
    (gs2 : List Group) (updated : Group) :
    ownChecks api (.UpdateGroup org groupName newName newPath) = true →
    (GetGroupByName api u org groupName s).result = .ok g → gs ≠ [] →
    GetGroupByNamePath api u org newName r tn → nameFree g r → gs2 ≠ [] →
    RunPath api u s (.UpdateGroup org groupName newName newPath) (.ok (.group updated))
      (openingTrace u org groupName .GROUP_ACTION_UPDATE_GROUP g0 g rest (.ok gs) ++ tn ++
        [Call.GetAuthorizedGroups u (createGroup api org newName newPath s1).1.Urn
          .GROUP_ACTION_UPDATE_GROUP [(createGroup api org newName newPath s1).1] (.ok gs2),
         Call.RepoUpdateGroup g newName newPath (createGroup api org newName newPath s1).1.Urn
          (.ok updated)])

/-! ## An example world

A repository holding the groups `dev` and `ops` of `org1`, in which every write
succeeds; the world state counts the collaborator calls made so far.  The
authorization filter is a parameter. -/

/-- Group `dev` of the example repository. -/
def devGroup : Group :=
  { ID := "g-1", Name := "dev", Path := "/teams", CreateAt := 1,
    Urn := "urn:org1:group:/teams/dev", Org := "org1" }

/-- Group `ops` of the example repository. -/
def opsGroup : Group :=
  { ID := "g-2", Name := "ops", Path := "/teams", CreateAt := 2,
    Urn := "urn:org1:group:/teams/ops", Org := "org1" }

/-- The one user of the example world. -/
def carol : User :=
  { ID := "u-1", ExternalID := "carol", Path := "/people", Urn := "urn:user:/people/carol",
    CreateAt := 3 }

/-- The one policy of the example world. -/
def readers : Policy :=
  { ID := "p-1", Name := "readers", Path := "/policies", Org := "org1",
    Urn := "urn:org1:policy:/policies/readers", CreateAt := 4 }

/-- Example repository: `carol` is a member of `ops` only and `readers` is
attached to `ops` only. -/
def exampleRepo : GroupRepo Nat where
  GetGroupByName := fun org name s =>
    (if org = "org1" ∧ name = "dev" then .ok devGroup
     else if org = "org1" ∧ name = "ops" then .ok opsGroup
     else .error ⟨.GROUP_NOT_FOUND, "group not found"⟩, s + 1)
  AddGroup := fun group s => (.ok group, s + 1)
  IsMemberOfGroup := fun _ groupID s => (.ok (groupID = "g-2"), s + 1)
  AddMember := fun _ _ s => (none, s + 1)
  RemoveMember := fun _ _ s => (none, s + 1)
  GetGroupMembers := fun _ s => (.ok [carol], s + 1)
  RemoveGroup := fun _ s => (none, s + 1)
  GetGroupsFiltered := fun _ _ s => (.ok [devGroup, opsGroup], s + 1)
  UpdateGroup := fun group newName newPath urn s =>
    (.ok { group with Name := newName, Path := newPath, Urn := urn }, s + 1)
  IsAttachedToGroup := fun groupID _ s => (.ok (groupID = "g-2"), s + 1)
  AttachPolicy := fun _ _ s => (none, s + 1)
  DetachPolicy := fun _ _ s => (none, s + 1)
  GetAttachedPolicies := fun _ s => (.ok [readers], s + 1)

/-- Example API over `exampleRepo` whose authorization filter answers by
`filter`; a field is valid when it is not empty. -/
def exampleAPI
    (filter : AuthenticatedUser → String → Action → List Group → Except Error (List Group)) :
    AuthAPI Nat where
  GroupRepo := exampleRepo
  GetAuthorizedGroups := fun user urn action groups s => (filter user urn action groups, s + 1)
  GetUserByExternalId := fun _ id s =>
    (if id = "carol" then .ok carol
     else .error ⟨.other "UserWithExternalIDNotFound", "user not found"⟩, s + 1)
  GetPolicyByName := fun _ _ name s =>
    (if name = "readers" then .ok readers
     else .error ⟨.other "PolicyWithOrgAndNameNotFound", "policy not found"⟩, s + 1)
  IsValidName := fun x => x != ""
  IsValidOrg := fun x => x != ""
  IsValidPath := fun x => x != ""
  IsValidUserExternalID := fun x => x != ""
  CreateUrn := fun org resource path name =>
    "urn:" ++ org ++ ":" ++ resource ++ ":" ++ path ++ "/" ++ name
  GetUrnPrefix := fun org resource path => "urn:" ++ org ++ ":" ++ resource ++ ":" ++ path ++ "*"
  RESOURCE_GROUP := "group"
  NewV4 := fun s => ("id-" ++ toString s, s + 1)
  Now := fun s => (s, s + 1)

/-- Filter that lets every candidate through. -/
def allowAll : AuthenticatedUser → String → Action → List Group → Except Error (List Group) :=
  fun _ _ _ groups => .ok groups

/-- Filter that lets every candidate through except for `action`, for which it
lets none through. -/
def denyAction (action : Action) :
    AuthenticatedUser → String → Action → List Group → Except Error (List Group) :=
  fun _ _ a groups => if a = action then .ok [] else .ok groups

/-- A caller without administrator rights. -/
def alice : AuthenticatedUser := { Identifier := "alice", Admin := false }

/-- Another caller. -/
def bob : AuthenticatedUser := { Identifier := "bob", Admin := false }

/-- Error of a failed answer. -/
def errorOf {ε α : Type} : Except ε α → Option ε
  | .error e => some e
  | .ok _ => none

/-- Database error a repository call failed with (`none` for a call that
succeeded and for a call to another collaborator). -/
def Call.repoError : Call → Option DBError
  | .GetAuthorizedGroups _ _ _ _ _ => none
  | .GetUserByExternalId _ _ _ => none
  | .GetPolicyByName _ _ _ _ => none
  | .RepoGetGroupByName _ _ ret => errorOf ret
  | .RepoAddGroup _ ret => errorOf ret
  | .RepoIsMemberOfGroup _ _ ret => errorOf ret
  | .RepoAddMember _ _ ret => ret
  | .RepoRemoveMember _ _ ret => ret
  | .RepoGetGroupMembers _ ret => errorOf ret
  | .RepoRemoveGroup _ ret => ret
  | .RepoGetGroupsFiltered _ _ ret => errorOf ret
  | .RepoUpdateGroup _ _ _ _ ret => errorOf ret
  | .RepoIsAttachedToGroup _ _ ret => errorOf ret
  | .RepoAttachPolicy _ _ ret => ret
  | .RepoDetachPolicy _ _ ret => ret
  | .RepoGetAttachedPolicies _ ret => errorOf ret

/-- Example API over a repository that has lost its connection when it is
asked to remove a group. -/
def brokenAPI : AuthAPI Nat :=
  { exampleAPI allowAll with
    GroupRepo :=
      { exampleRepo with
        RemoveGroup := fun _ s => (some ⟨.INTERNAL_ERROR, "connection lost"⟩, s + 1) } }

/-- Two results agree up to the caller: the same value, or errors with the
same code whose messages are equal unless the code is
`UNAUTHORIZED_RESOURCES_ERROR`. -/
def sameOutcome {α : Type} : Except Error α → Except Error α → Prop
  | .ok v1, .ok v2 => v1 = v2
  | .error e1, .error e2 =>
    e1.Code = e2.Code ∧ (e1.Code ≠ .UNAUTHORIZED_RESOURCES_ERROR → e1.Message = e2.Message)
  | _, _ => False

/-- The call goes to the group repository. -/
def Call.isRepo : Call → Bool
  | .GetAuthorizedGroups _ _ _ _ _ => false
  | .GetUserByExternalId _ _ _ => false
  | .GetPolicyByName _ _ _ _ => false
  | .RepoGetGroupByName _ _ _ => true
  | .RepoAddGroup _ _ => true
  | .RepoIsMemberOfGroup _ _ _ => true
  | .RepoAddMember _ _ _ => true
  | .RepoRemoveMember _ _ _ => true
  | .RepoGetGroupMembers _ _ => true
  | .RepoRemoveGroup _ _ => true
  | .RepoGetGroupsFiltered _ _ _ => true
  | .RepoUpdateGroup _ _ _ _ _ => true
  | .RepoIsAttachedToGroup _ _ _ => true
  | .RepoAttachPolicy _ _ _ => true
  | .RepoDetachPolicy _ _ _ => true
  | .RepoGetAttachedPolicies _ _ => true

/-- Repository calls of a trace, in order. -/
def repoCalls (t : List Call) : List Call := t.filter Call.isRepo

/-- Two outcomes agree up to the caller: results that agree, the same final
world and the same repository calls. -/
def Res.agrees {α : Type} (a b : Res σ α) : Prop :=
  sameOutcome a.result b.result ∧ a.state = b.state ∧ repoCalls a.trace = repoCalls b.trace

/-- Result of an operation whose last step is a mutating repository call that
answered `ret`: the database error becomes `UNKNOWN_API_ERROR`, no error is
success. -/
def afterWrite (ret : Option DBError) : Except Error Unit :=
  match ret with
  | some dbError => .error ⟨.UNKNOWN_API_ERROR, dbError.Message⟩
  | none => .ok ()

/-- The group `AddGroup` builds for `qa` in the example world. -/
def qaGroup : Group :=
  { ID := "id-0", Name := "qa", Path := "/teams", CreateAt := 1,
    Urn := "urn:org1:group:/teams/qa", Org := "org1" }

/-- The call is a call to the authorization filter `GetAuthorizedGroups`. -/
def Call.isFilter : Call → Bool
  | .GetAuthorizedGroups _ _ _ _ _ => true
  | .GetUserByExternalId _ _ _ => false
  | .GetPolicyByName _ _ _ _ => false
  | .RepoGetGroupByName _ _ _ => false
  | .RepoAddGroup _ _ => false
  | .RepoIsMemberOfGroup _ _ _ => false
  | .RepoAddMember _ _ _ => false
  | .RepoRemoveMember _ _ _ => false
  | .RepoGetGroupMembers _ _ => false
  | .RepoRemoveGroup _ _ => false
  | .RepoGetGroupsFiltered _ _ _ => false
  | .RepoUpdateGroup _ _ _ _ _ => false
  | .RepoIsAttachedToGroup _ _ _ => false
  | .RepoAttachPolicy _ _ _ => false
  | .RepoDetachPolicy _ _ _ => false
  | .RepoGetAttachedPolicies _ _ => false

/-- Org and name of the group an operation is about (`GetGroupList` is about
no single group). -/
def Op.target : Op → Option (String × String)
  | .AddGroup org name _ => some (org, name)
  | .AddMember _ groupName org => some (org, groupName)
  | .RemoveMember _ groupName org => some (org, groupName)
  | .ListMembers org groupName => some (org, groupName)
  | .RemoveGroup org name => some (org, name)
  | .GetGroupByName org name => some (org, name)
  | .GetGroupList _ _ => none
  | .UpdateGroup org groupName _ _ => some (org, groupName)
  | .AttachPolicyToGroup org groupName _ => some (org, groupName)
  | .DetachPolicyToGroup org groupName _ => some (org, groupName)
  | .ListAttachedGroupPolicies org groupName => some (org, groupName)

/-- Number of calls to the authorization filter in a trace. -/
def authCalls (t : List Call) : Nat := (t.filter Call.isFilter).length

/-- Numbers of filter calls a successful run of an operation can make:
`AddGroup`, `GetGroupByName` and `GetGroupList` ask the filter once; the
operations on an existing group ask it twice, once inside `GetGroupByName` and
once for their own action; `UpdateGroup` asks it a third time for the renamed
group, and a fourth time when its lookup of the new name finds a group. -/
def successfulAuthCalls : Op → List Nat
  | .AddGroup _ _ _ => [1]
  | .AddMember _ _ _ => [2]
  | .RemoveMember _ _ _ => [2]
  | .ListMembers _ _ => [2]
  | .RemoveGroup _ _ => [2]
  | .GetGroupByName _ _ => [1]
  | .GetGroupList _ _ => [1]
  | .UpdateGroup _ _ _ _ => [3, 4]
  | .AttachPolicyToGroup _ _ _ => [2]
  | .DetachPolicyToGroup _ _ _ => [2]
  | .ListAttachedGroupPolicies _ _ => [2]

/-- Some name, org, path or external-id argument of the invocation is rejected
by its validator, where an empty org and an empty path prefix of `GetGroupList`
count as not rejected. -/
def fieldsRejected (api : AuthAPI σ) : Op → Bool
  | .AddGroup org name path =>
    !api.IsValidName name || !api.IsValidOrg org || !api.IsValidPath path
  | .AddMember userID groupName org =>
    !api.IsValidUserExternalID userID || !api.IsValidOrg org || !api.IsValidName groupName
  | .RemoveMember userID groupName org =>
    !api.IsValidUserExternalID userID || !api.IsValidOrg org || !api.IsValidName groupName
  | .ListMembers org groupName => !api.IsValidName groupName || !api.IsValidOrg org
  | .RemoveGroup org name => !api.IsValidName name || !api.IsValidOrg org
  | .GetGroupByName org name => !api.IsValidName name || !api.IsValidOrg org
  | .GetGroupList org pathPrefix =>
    (org.length > 0 && !api.IsValidOrg org)
      || (pathPrefix.length > 0 && !api.IsValidPath pathPrefix)
  | .UpdateGroup org groupName newName newPath =>
    !api.IsValidName groupName || !api.IsValidName newName || !api.IsValidOrg org
      || !api.IsValidPath newPath
  | .AttachPolicyToGroup org groupName policyName =>
    !api.IsValidName groupName || !api.IsValidOrg org || !api.IsValidName policyName
  | .DetachPolicyToGroup org groupName policyName =>
    !api.IsValidName groupName || !api.IsValidOrg org || !api.IsValidName policyName
  | .ListAttachedGroupPolicies org groupName =>
    !api.IsValidName groupName || !api.IsValidOrg org

/-- Filter that answers every question with the groups `allowed`, whatever the
candidates are. -/
def answerWith (allowed : List Group) :
    AuthenticatedUser → String → Action → List Group → Except Error (List Group) :=
  fun _ _ _ _ => .ok allowed

/-! ## Error responders of the worker (`http/handler.go`)

The request's `http.ResponseWriter` and the logger are the two collaborators.
`Conn` records what they have been told; a responder runs from a `Conn` and
either returns or panics, as a method call on a nil interface value does. -/

/-- Status codes of `net/http` the responders use. -/
def StatusOK : Nat := 200

/-- Code of `http.StatusBadRequest`. -/
def StatusBadRequest : Nat := 400

/-- Code of `http.StatusForbidden`. -/
def StatusForbidden : Nat := 403

/-- Code of `http.StatusNotFound`. -/
def StatusNotFound : Nat := 404

/-- Code of `http.StatusConflict`. -/
def StatusConflict : Nat := 409

/-- Code of `http.StatusInternalServerError`. -/
def StatusInternalServerError : Nat := 500

/-- The fields of `*http.Request` the responders read. -/
structure Request where
  Method : String
  RequestURI : String
  RemoteAddr : String
  deriving DecidableEq, Repr

/-- Request context (`api.RequestInfo`), as `GetRequestInfo` fills it. -/
structure RequestInfo where
  Identifier : String
  Admin : Bool
  RequestID : String
  deriving DecidableEq, Repr

/-- One entry of the logger: the fields of `RespondInternalServerError` and the
message. -/
structure LogEntry where
  requestID : String
  method : String
  URI : String
  address : String
  user : String
  status : Nat
  msg : String
  deriving DecidableEq, Repr

/-- What the request's writer and the logger have been told so far: the header
map, the status code of the first `WriteHeader` (or of the first `Write`), the
bytes written and the log entries. -/
structure Conn where
  header : List (String × String)
  status : Option Nat
  body : String
  log : List LogEntry
  deriving DecidableEq, Repr

/-- An `http.ResponseWriter` interface value: nil, or the writer of the
request. -/
inductive ResponseWriter where
  | nil
  | request
  deriving DecidableEq, Repr

/-- Outcome of running handler code: it returns a value, or it panics with a
nil pointer dereference; `conn` is what the collaborators were told until
then. -/
inductive Ran (α : Type) where
  | returned (value : α) (conn : Conn)
  | panicked (conn : Conn)
  deriving DecidableEq, Repr

/-- Sequencing: what follows a panic does not run. -/
def Ran.andThen {α β : Type} (first : Ran α) (next : α → Conn → Ran β) : Ran β :=
  match first with
  | .returned value conn => next value conn
  | .panicked conn => .panicked conn

/-- Call of `w.Header().Set(key, value)`. -/
def ResponseWriter.HeaderSet (w : ResponseWriter) (key value : String) (c : Conn) : Ran Unit :=
  match w with
  | .nil => .panicked c
  | .request =>
    .returned () { c with header := (key, value) :: c.header.filter fun kv => kv.1 != key }

/-- Call of `w.WriteHeader(statusCode)`; only the first status code counts. -/
def ResponseWriter.WriteHeader (w : ResponseWriter) (statusCode : Nat) (c : Conn) : Ran Unit :=
  match w with
  | .nil => .panicked c
  | .request =>
    .returned () (if c.status.isSome then c else { c with status := some statusCode })

/-- Call of `w.Write(b)`; a write without a status code sends `StatusOK`. -/
def ResponseWriter.Write (w : ResponseWriter) (b : String) (c : Conn) : Ran Unit :=
  match w with
  | .nil => .panicked c
  | .request =>
    .returned () { c with
      status := (if c.status.isSome then c.status else some StatusOK),
      body := c.body ++ b }

/-- Private helper `writeErrorWithStatus`.  `marshal` is `json.Marshal` on
`*api.Error`; on an encoding error the helper returns the nil writer and the
error. -/
def writeErrorWithStatus (marshal : Error → Except String String) (w : ResponseWriter)
    (apiError : Error) (statusCode : Nat) (c : Conn) : Ran (ResponseWriter × Option String) :=
  match marshal apiError with
  | .error err => .returned (.nil, some err) c
  | .ok b =>
    (w.HeaderSet "Content-Type" "application/json" c).andThen fun _ c =>
    (w.WriteHeader statusCode c).andThen fun _ c =>
    (w.Write b c).andThen fun _ c =>
    .returned (w, none) c

/-- Method `WorkerHandler.RespondInternalServerError`: log, then write the
status on `w`. -/
def WorkerHandler.RespondInternalServerError (r : Request) (requestInfo : RequestInfo)
    (w : ResponseWriter) (c : Conn) : Ran Unit :=
  let c := { c with log := c.log ++ [{
    requestID := requestInfo.RequestID, method := r.Method, URI := r.RequestURI,
    address := r.RemoteAddr, user := requestInfo.Identifier,
    status := StatusInternalServerError, msg := "Internal server error" }] }
  w.WriteHeader StatusInternalServerError c

/-- Method `WorkerHandler.RespondOk` for a value that `marshalValue` encodes. -/
def WorkerHandler.RespondOk {α : Type} (marshalValue : α → Except String String) (r : Request)
    (requestInfo : RequestInfo) (w : ResponseWriter) (value : α) (c : Conn) : Ran Unit :=
  match marshalValue value with
  | .error _ => WorkerHandler.RespondInternalServerError r requestInfo w c
  | .ok b =>
    (w.HeaderSet "Content-Type" "application/json" c).andThen fun _ c =>
    w.Write b c

/-- Method `WorkerHandler.RespondNotFound`.  The statement
`w, err := writeErrorWithStatus(w, …)` assigns to the parameter `w`, so the `w`
handed to `RespondInternalServerError` is the writer the helper returned. -/
def WorkerHandler.RespondNotFound (marshal : Error → Except String String) (r : Request)
    (requestInfo : RequestInfo) (w : ResponseWriter) (apiError : Error) (c : Conn) : Ran Unit :=
  (writeErrorWithStatus marshal w apiError StatusNotFound c).andThen fun (w, err) c =>
    match err with
    | some _ => WorkerHandler.RespondInternalServerError r requestInfo w c
    | none => .returned () c

/-- Method `WorkerHandler.RespondBadRequest`. -/
def WorkerHandler.RespondBadRequest (marshal : Error → Except String String) (r : Request)
    (requestInfo : RequestInfo) (w : ResponseWriter) (apiError : Error) (c : Conn) : Ran Unit :=
  (writeErrorWithStatus marshal w apiError StatusBadRequest c).andThen fun (w, err) c =>
    match err with
    | some _ => WorkerHandler.RespondInternalServerError r requestInfo w c
    | none => .returned () c

/-- Method `WorkerHandler.RespondConflict`. -/
def WorkerHandler.RespondConflict (marshal : Error → Except String String) (r : Request)
    (requestInfo : RequestInfo) (w : ResponseWriter) (apiError : Error) (c : Conn) : Ran Unit :=
  (writeErrorWithStatus marshal w apiError StatusConflict c).andThen fun (w, err) c =>
    match err with
    | some _ => WorkerHandler.RespondInternalServerError r requestInfo w c
    | none => .returned () c

/-- Method `WorkerHandler.RespondForbidden`. -/
def WorkerHandler.RespondForbidden (marshal : Error → Except String String) (r : Request)
    (requestInfo : RequestInfo) (w : ResponseWriter) (apiError : Error) (c : Conn) : Ran Unit :=
  (writeErrorWithStatus marshal w apiError StatusForbidden c).andThen fun (w, err) c =>
    match err with
    | some _ => WorkerHandler.RespondInternalServerError r requestInfo w c
    | none => .returned () c

/-- An untouched connection. -/
def freshConn : Conn := { header := [], status := none, body := "", log := [] }

/-- A request for a group that does not exist. -/
def exampleRequest : Request :=
  { Method := "GET", RequestURI := "/api/v1/organizations/org1/groups/none",
    RemoteAddr := "10.0.0.7:4242" }

/-- Context of `exampleRequest`. -/
def exampleInfo : RequestInfo := { Identifier := "alice", Admin := false, RequestID := "req-1" }

/-- The case of `json.Marshal` returning an error, as an encoder that fails on
every value.  The standard library's encoder does not fail on the two strings
of an `api.Error`; the responders handle its error all the same, and this
encoder leads into that branch. -/
def failingMarshal : Error → Except String String := fun _ => .error "json: unsupported value"

/-- An encoder that writes the message of the error. -/
def messageMarshal : Error → Except String String := fun e => .ok e.Message

/-- Log entry `RespondInternalServerError` writes for `r` and `requestInfo`. -/
def serverErrorEntry (r : Request) (requestInfo : RequestInfo) : LogEntry :=
  { requestID := requestInfo.RequestID, method := r.Method, URI := r.RequestURI,
    address := r.RemoteAddr, user := requestInfo.Identifier,
    status := StatusInternalServerError, msg := "Internal server error" }

/-! # Theorems -/

/-! ## Slices built by `append` -/

theorem Slice.foldl_append {α β : Type} (f : α → β) (xs : List α) (elems : List β) :
    xs.foldl (fun (acc : Slice β) (x : α) => acc.append (f x)) (Slice.mk elems)
      = Slice.mk (elems ++ xs.map f) := by
  induction xs generalizing elems with
  | nil => simp
  | cons x xs ih =>
    rw [List.foldl_cons, List.map_cons]
    show xs.foldl (fun (acc : Slice β) (x : α) => acc.append (f x)) (Slice.mk (elems ++ [f x])) = _
    rw [ih]
    simp

theorem Slice.toList_foldl_append {α β : Type} (f : α → β) (xs : List α) (elems : List β) :
    (xs.foldl (fun (acc : Slice β) (x : α) => acc.append (f x)) (Slice.mk elems)).toList
      = elems ++ xs.map f := by
  rw [Slice.foldl_append, Slice.toList]

/-! ## The operations follow their paths -/

theorem GetGroupByName_path (api : AuthAPI σ) (u : AuthenticatedUser) (org name : String)
    (s : σ) :
    GetGroupByNamePath api u org name (GetGroupByName api u org name s).result
      (GetGroupByName api u org name s).trace := by
  simp only [GetGroupByName]
  repeat' split
  all_goals simp_all only [List.singleton_append, Bool.not_eq_true', Bool.not_eq_false,
    Bool.not_eq_true]
  all_goals constructor <;> simp_all

theorem AddGroup_path (api : AuthAPI σ) (u : AuthenticatedUser) (org name path : String)
    (s : σ) :
    RunPath api u s (.AddGroup org name path)
      (run api u (.AddGroup org name path) s).result
      (run api u (.AddGroup org name path) s).trace := by
  simp only [run, Res.as, AddGroup]
  repeat' split
  all_goals simp_all only [List.singleton_append, List.append_assoc, List.cons_append,
    List.nil_append, Bool.not_eq_true', Bool.not_eq_false, Bool.not_eq_true, Except.map,
    Nat.lt_one_iff, List.length_eq_zero]
  all_goals first
    | (apply RunPath.invalid; simp_all [ownChecks])
    | (apply RunPath.addGroup_filterFailed <;> simp_all [ownChecks])
    | (apply RunPath.addGroup_denied <;> simp_all [ownChecks])
    | (apply RunPath.addGroup_exists <;> simp_all [ownChecks])
    | (apply RunPath.addGroup_lookupFailed <;> simp_all [ownChecks])
    | (apply RunPath.addGroup_writeFailed <;> simp_all [ownChecks])
    | (apply RunPath.addGroup_done <;> simp_all [ownChecks])

theorem GetGroupList_path (api : AuthAPI σ) (u : AuthenticatedUser) (org pathPrefix : String)
    (s : σ) :
    RunPath api u s (.GetGroupList org pathPrefix)
      (run api u (.GetGroupList org pathPrefix) s).result
      (run api u (.GetGroupList org pathPrefix) s).trace := by
  simp only [run, Res.as, GetGroupList]
  generalize hp : (if pathPrefix.length = 0 then "/" else pathPrefix) = p
  split
  · apply RunPath.invalid; simp_all [ownChecks, Nat.pos_iff_ne_zero]
  split
  · apply RunPath.invalid; simp_all [ownChecks, Nat.pos_iff_ne_zero]
  have hv : ownChecks api (.GetGroupList org pathPrefix) = true := by
    simp_all [ownChecks, Nat.pos_iff_ne_zero, or_iff_not_imp_left]
  split
  · rename_i h; simp only [h, Except.map, List.singleton_append]
    exact .getGroupList_repoFailed _ _ _ _ hv hp.symm
  · split
    · rename_i h1 _ _ h2; simp only [h1, h2, Except.map, List.singleton_append]
      exact .getGroupList_filterFailed _ _ _ _ _ hv hp.symm
    · rename_i h1 _ _ h2
      simp only [h1, h2, Except.map, List.singleton_append, Slice.toList_foldl_append,
        List.nil_append]
      exact .getGroupList_done _ _ _ _ _ hv hp.symm

theorem RemoveGroup_path (api : AuthAPI σ) (u : AuthenticatedUser) (org name : String)
    (s : σ) :
    RunPath api u s (.RemoveGroup org name)
      (run api u (.RemoveGroup org name) s).result
      (run api u (.RemoveGroup org name) s).trace := by
  obtain ⟨t, ht⟩ : ∃ t, (GetGroupByName api u org name s).trace = t := ⟨_, rfl⟩
  have hg := GetGroupByName_path api u org name s
  rw [ht] at hg
  simp only [run, Res.as, RemoveGroup, ht]
  repeat' split
  all_goals simp_all only [List.singleton_append, List.append_assoc, List.cons_append,
    List.nil_append, Bool.not_eq_true', Bool.not_eq_false, Bool.not_eq_true, Except.map,
    Nat.lt_one_iff, List.length_eq_zero]
  all_goals first
    | (apply RunPath.invalid; simp_all [ownChecks])
    | (apply RunPath.removeGroup_refused _ _ _ _ (by simp_all [ownChecks]) (.lookup _ _ hg))
    | (cases hg; first
        | (apply RunPath.removeGroup_refused _ _ _ _ (by simp_all [ownChecks]); first
            | exact Refused.filterFailed _ _ _ _ (by simp_all) (by assumption)
            | exact Refused.denied _ _ _ (by simp_all) (by assumption))
        | (apply RunPath.removeGroup_writeFailed <;> simp_all [ownChecks])
        | (apply RunPath.removeGroup_done <;> simp_all [ownChecks]))

theorem ListMembers_path (api : AuthAPI σ) (u : AuthenticatedUser) (org groupName : String)
    (s : σ) :
    RunPath api u s (.ListMembers org groupName)
      (run api u (.ListMembers org groupName) s).result
      (run api u (.ListMembers org groupName) s).trace := by
  obtain ⟨t, ht⟩ : ∃ t, (GetGroupByName api u org groupName s).trace = t := ⟨_, rfl⟩
  have hg := GetGroupByName_path api u org groupName s
  rw [ht] at hg
  simp only [run, Res.as, ListMembers, ht]
  repeat' split
  all_goals simp_all only [List.singleton_append, List.append_assoc, List.cons_append,
    List.nil_append, Bool.not_eq_true', Bool.not_eq_false, Bool.not_eq_true, Except.map,
    Nat.lt_one_iff, List.length_eq_zero, Slice.toList_foldl_append]
  all_goals first
    | (apply RunPath.invalid; simp_all [ownChecks])
    | (apply RunPath.listMembers_refused _ _ _ _ (by simp_all [ownChecks]) (.lookup _ _ hg))
    | (cases hg; first
        | (apply RunPath.listMembers_refused _ _ _ _ (by simp_all [ownChecks]); first
            | exact Refused.filterFailed _ _ _ _ (by simp_all) (by assumption)
            | exact Refused.denied _ _ _ (by simp_all) (by assumption))
        | (apply RunPath.listMembers_repoFailed <;> simp_all [ownChecks])
        | (apply RunPath.listMembers_done <;> simp_all [ownChecks]))

theorem ListAttachedGroupPolicies_path (api : AuthAPI σ) (u : AuthenticatedUser) (org groupName : String)
    (s : σ) :
    RunPath api u s (.ListAttachedGroupPolicies org groupName)
      (run api u (.ListAttachedGroupPolicies org groupName) s).result
      (run api u (.ListAttachedGroupPolicies org groupName) s).trace := by
  obtain ⟨t, ht⟩ : ∃ t, (GetGroupByName api u org groupName s).trace = t := ⟨_, rfl⟩
  have hg := GetGroupByName_path api u org groupName s
  rw [ht] at hg
  simp only [run, Res.as, ListAttachedGroupPolicies, ht]
  repeat' split
  all_goals simp_all only [List.singleton_append, List.append_assoc, List.cons_append,
    List.nil_append, Bool.not_eq_true', Bool.not_eq_false, Bool.not_eq_true, Except.map,
    Nat.lt_one_iff, List.length_eq_zero, Slice.toList_foldl_append]
  all_goals first
    | (apply RunPath.invalid; simp_all [ownChecks])
    | (apply RunPath.listAttached_refused _ _ _ _ (by simp_all [ownChecks]) (.lookup _ _ hg))
    | (cases hg; first
        | (apply RunPath.listAttached_refused _ _ _ _ (by simp_all [ownChecks]); first
            | exact Refused.filterFailed _ _ _ _ (by simp_all) (by assumption)
            | exact Refused.denied _ _ _ (by simp_all) (by assumption))
        | (apply RunPath.listAttached_repoFailed <;> simp_all [ownChecks])
        | (apply RunPath.listAttached_done <;> simp_all [ownChecks]))

theorem AddMember_path (api : AuthAPI σ) (u : AuthenticatedUser) (userID groupName org : String)
    (s : σ) :
    RunPath api u s (.AddMember userID groupName org)
      (run api u (.AddMember userID groupName org) s).result
      (run api u (.AddMember userID groupName org) s).trace := by
  obtain ⟨t, ht⟩ : ∃ t, (GetGroupByName api u org groupName s).trace = t := ⟨_, rfl⟩
  have hg := GetGroupByName_path api u org groupName s
  rw [ht] at hg
  simp only [run, Res.as, AddMember, ht]
  repeat' split
  all_goals simp_all only [List.singleton_append, List.append_assoc, List.cons_append,
    List.nil_append, Bool.not_eq_true', Bool.not_eq_false, Bool.not_eq_true, Except.map,
    Nat.lt_one_iff, List.length_eq_zero]
  all_goals first
    | (apply RunPath.invalid; simp_all [ownChecks])
    | (apply RunPath.addMember_refused _ _ _ _ _ (by simp_all [ownChecks]) (.lookup _ _ hg))
    | (cases hg; first
        | (apply RunPath.addMember_refused _ _ _ _ _ (by simp_all [ownChecks]); first
            | exact Refused.filterFailed _ _ _ _ (by simp_all) (by assumption)
            | exact Refused.denied _ _ _ (by simp_all) (by assumption))
        | (apply RunPath.addMember_userFailed <;> simp_all [ownChecks])
        | (apply RunPath.addMember_relationFailed <;> simp_all [ownChecks])
        | (apply RunPath.addMember_already <;> simp_all [ownChecks])
        | (apply RunPath.addMember_writeFailed <;> simp_all [ownChecks])
        | (apply RunPath.addMember_done <;> simp_all [ownChecks]))

theorem RemoveMember_path (api : AuthAPI σ) (u : AuthenticatedUser) (userID groupName org : String)
    (s : σ) :
    RunPath api u s (.RemoveMember userID groupName org)
      (run api u (.RemoveMember userID groupName org) s).result
      (run api u (.RemoveMember userID groupName org) s).trace := by
  obtain ⟨t, ht⟩ : ∃ t, (GetGroupByName api u org groupName s).trace = t := ⟨_, rfl⟩
  have hg := GetGroupByName_path api u org groupName s
  rw [ht] at hg
  simp only [run, Res.as, RemoveMember, ht]
  repeat' split
  all_goals simp_all only [List.singleton_append, List.append_assoc, List.cons_append,
    List.nil_append, Bool.not_eq_true', Bool.not_eq_false, Bool.not_eq_true, Except.map,
    Nat.lt_one_iff, List.length_eq_zero]
  all_goals first
    | (apply RunPath.invalid; simp_all [ownChecks])
    | (apply RunPath.removeMember_refused _ _ _ _ _ (by simp_all [ownChecks]) (.lookup _ _ hg))
    | (cases hg; first
        | (apply RunPath.removeMember_refused _ _ _ _ _ (by simp_all [ownChecks]); first
            | exact Refused.filterFailed _ _ _ _ (by simp_all) (by assumption)
            | exact Refused.denied _ _ _ (by simp_all) (by assumption))
        | (apply RunPath.removeMember_userFailed <;> simp_all [ownChecks])
        | (apply RunPath.removeMember_relationFailed <;> simp_all [ownChecks])
        | (apply RunPath.removeMember_notMember <;> simp_all [ownChecks])
        | (apply RunPath.removeMember_writeFailed <;> simp_all [ownChecks])
        | (apply RunPath.removeMember_done <;> simp_all [ownChecks]))

theorem AttachPolicyToGroup_path (api : AuthAPI σ) (u : AuthenticatedUser) (org groupName policyName : String)
    (s : σ) :
    RunPath api u s (.AttachPolicyToGroup org groupName policyName)
      (run api u (.AttachPolicyToGroup org groupName policyName) s).result
      (run api u (.AttachPolicyToGroup org groupName policyName) s).trace := by
  obtain ⟨t, ht⟩ : ∃ t, (GetGroupByName api u org groupName s).trace = t := ⟨_, rfl⟩
  have hg := GetGroupByName_path api u org groupName s
  rw [ht] at hg
  simp only [run, Res.as, AttachPolicyToGroup, ht]
  repeat' split
  all_goals simp_all only [List.singleton_append, List.append_assoc, List.cons_append,
    List.nil_append, Bool.not_eq_true', Bool.not_eq_false, Bool.not_eq_true, Except.map,
    Nat.lt_one_iff, List.length_eq_zero]
  all_goals first
    | (apply RunPath.invalid; simp_all [ownChecks])
    | (apply RunPath.attach_refused _ _ _ _ _ (by simp_all [ownChecks]) (.lookup _ _ hg))
    | (cases hg; first
        | (apply RunPath.attach_refused _ _ _ _ _ (by simp_all [ownChecks]); first
            | exact Refused.filterFailed _ _ _ _ (by simp_all) (by assumption)
            | exact Refused.denied _ _ _ (by simp_all) (by assumption))
        | (apply RunPath.attach_policyFailed <;> simp_all [ownChecks])
        | (apply RunPath.attach_relationFailed <;> simp_all [ownChecks])
        | (apply RunPath.attach_already <;> simp_all [ownChecks])
        | (apply RunPath.attach_writeFailed <;> simp_all [ownChecks])
        | (apply RunPath.attach_done <;> simp_all [ownChecks]))

theorem DetachPolicyToGroup_path (api : AuthAPI σ) (u : AuthenticatedUser) (org groupName policyName : String)
    (s : σ) :
    RunPath api u s (.DetachPolicyToGroup org groupName policyName)
      (run api u (.DetachPolicyToGroup org groupName policyName) s).result
      (run api u (.DetachPolicyToGroup org groupName policyName) s).trace := by
  obtain ⟨t, ht⟩ : ∃ t, (GetGroupByName api u org groupName s).trace = t := ⟨_, rfl⟩
  have hg := GetGroupByName_path api u org groupName s
  rw [ht] at hg
  simp only [run, Res.as, DetachPolicyToGroup, ht]
  repeat' split
  all_goals simp_all only [List.singleton_append, List.append_assoc, List.cons_append,
    List.nil_append, Bool.not_eq_true', Bool.not_eq_false, Bool.not_eq_true, Except.map,
    Nat.lt_one_iff, List.length_eq_zero]
  all_goals first
    | (apply RunPath.invalid; simp_all [ownChecks])
    | (apply RunPath.detach_refused _ _ _ _ _ (by simp_all [ownChecks]) (.lookup _ _ hg))
    | (cases hg; first
        | (apply RunPath.detach_refused _ _ _ _ _ (by simp_all [ownChecks]); first
            | exact Refused.filterFailed _ _ _ _ (by simp_all) (by assumption)
            | exact Refused.denied _ _ _ (by simp_all) (by assumption))
        | (apply RunPath.detach_policyFailed <;> simp_all [ownChecks])
        | (apply RunPath.detach_relationFailed <;> simp_all [ownChecks])
        | (apply RunPath.detach_notAttached <;> simp_all [ownChecks])
        | (apply RunPath.detach_writeFailed <;> simp_all [ownChecks])
        | (apply RunPath.detach_done <;> simp_all [ownChecks]))

theorem UpdateGroup_path (api : AuthAPI σ) (u : AuthenticatedUser)
    (org groupName newName newPath : String) (s : σ) :
    RunPath api u s (.UpdateGroup org groupName newName newPath)
      (run api u (.UpdateGroup org groupName newName newPath) s).result
      (run api u (.UpdateGroup org groupName newName newPath) s).trace := by
  obtain ⟨t, ht⟩ : ∃ t, (GetGroupByName api u org groupName s).trace = t := ⟨_, rfl⟩
  have hg := GetGroupByName_path api u org groupName s
  rw [ht] at hg
  simp only [run, Res.as, UpdateGroup, ht]
  split
  · apply RunPath.invalid; simp_all [ownChecks]
  split
  · apply RunPath.invalid; simp_all [ownChecks]
  split
  · apply RunPath.invalid; simp_all [ownChecks]
  have hv : ownChecks api (.UpdateGroup org groupName newName newPath) = true := by
    simp_all [ownChecks]
  split
  · rename_i h
    rw [h] at hg
    exact .update_refused _ _ _ _ _ _ hv (.lookup _ _ hg)
  rename_i group hres
  rw [hres] at hg
  cases hg
  rename_i g0 rest hv0
  split
  · rename_i h
    simp only [h, Except.map]
    exact .update_refused _ _ _ _ _ _ hv (.filterFailed _ _ _ _ hv0 hres)
  rename_i gs hgs
  simp only [hgs]
  split
  · rename_i h
    have : gs = [] := by simpa [Nat.lt_one_iff] using h
    subst this
    exact .update_refused _ _ _ _ _ _ hv (.denied _ _ _ hv0 hres)
  rename_i hne
  have hne : gs ≠ [] := by
    intro h; subst h; simp at hne
  generalize (api.GetAuthorizedGroups u _ _ _ _).2 = s1
  have hn := GetGroupByName_path api u org newName s1
  generalize hr : (GetGroupByName api u org newName s1).result = r at hn
  generalize (GetGroupByName api u org newName s1).trace = tn at hn
  generalize (GetGroupByName api u org newName s1).state = s2
  split
  · rename_i err hE
    simp only [Except.map]
    cases r with
    | ok newGroup =>
      simp only at hE
      split at hE
      · cases hE
        exact .update_exists _ _ _ _ _ _ _ _ _ _ _ hv hres hne hn (by assumption)
      · cases hE
    | error apiError =>
      simp only at hE
      split at hE
      · cases hE
        exact .update_lookupFailed _ _ _ _ _ _ _ _ _ _ hv hres hne hn (by assumption)
      · cases hE
  · rename_i hE
    have hfree : nameFree group r := by
      cases r <;> simp_all [nameFree]
    split
    · rename_i h
      simp only [h, Except.map]
      exact .update_filterFailed _ _ _ _ _ _ _ _ _ _ _ _ hv hres hne hn hfree
    rename_i gs2 hgs2
    simp only [hgs2]
    split
    · rename_i h
      have : gs2 = [] := by simpa [Nat.lt_one_iff] using h
      subst this
      exact .update_denied _ _ _ _ _ _ _ _ _ _ _ hv hres hne hn hfree
    rename_i hne2
    have hne2 : gs2 ≠ [] := by
      intro h; subst h; simp at hne2
    split
    · rename_i h
      simp only [h, Except.map, List.append_assoc]
      exact .update_writeFailed _ _ _ _ _ _ _ _ _ _ _ _ _ hv hres hne hn hfree hne2
    · rename_i h
      simp only [h, Except.map, List.append_assoc]
      exact .update_done _ _ _ _ _ _ _ _ _ _ _ _ _ hv hres hne hn hfree hne2

/-- Every execution of every operation follows one of its paths. -/
theorem run_path (api : AuthAPI σ) (u : AuthenticatedUser) (op : Op) (s : σ) :
    RunPath api u s op (run api u op s).result (run api u op s).trace := by
  cases op with
  | AddGroup org name path => exact AddGroup_path api u org name path s
  | AddMember userID groupName org => exact AddMember_path api u userID groupName org s
  | RemoveMember userID groupName org => exact RemoveMember_path api u userID groupName org s
  | ListMembers org groupName => exact ListMembers_path api u org groupName s
  | RemoveGroup org name => exact RemoveGroup_path api u org name s
  | GetGroupByName org name =>
    exact .getGroupByName org name _ _ (GetGroupByName_path api u org name s)
  | GetGroupList org pathPrefix => exact GetGroupList_path api u org pathPrefix s
  | UpdateGroup org groupName newName newPath =>
    exact UpdateGroup_path api u org groupName newName newPath s
  | AttachPolicyToGroup org groupName policyName =>
    exact AttachPolicyToGroup_path api u org groupName policyName s
  | DetachPolicyToGroup org groupName policyName =>
    exact DetachPolicyToGroup_path api u org groupName policyName s
  | ListAttachedGroupPolicies org groupName =>
    exact ListAttachedGroupPolicies_path api u org groupName s

theorem GetGroupByNamePath.of_invalid {api : AuthAPI σ} {u : AuthenticatedUser}
    {org name : String} {r : Except Error Group} {t : List Call}
    (hp : GetGroupByNamePath api u org name r t)
    (h : (api.IsValidName name && api.IsValidOrg org) = false) :
    (∃ m, r = .error ⟨.INVALID_PARAMETER_ERROR, m⟩) ∧ t = [] := by
  cases hp <;> simp_all

theorem Refused.refused_of_invalid {api : AuthAPI σ} {u : AuthenticatedUser}
    {s : σ} {org name : String} {a : Action} {e : Error} {t : List Call}
    (hp : Refused api u s org name a e t)
    (h : (api.IsValidName name && api.IsValidOrg org) = false) :
    (∃ m, e = ⟨.INVALID_PARAMETER_ERROR, m⟩) ∧ t = [] := by
  cases hp with
  | lookup e t hl =>
    obtain ⟨⟨m, hm⟩, ht⟩ := hl.of_invalid h
    cases hm
    exact ⟨⟨m, rfl⟩, ht⟩
  | filterFailed => simp_all
  | denied => simp_all

theorem GetGroupByName_ok_valid {api : AuthAPI σ} {u : AuthenticatedUser}
    {org name : String} {s : σ} {g : Group}
    (h : (GetGroupByName api u org name s).result = .ok g) :
    (api.IsValidName name && api.IsValidOrg org) = true := by
  by_contra hc
  have hx := (GetGroupByName_path api u org name s).of_invalid (by simpa using hc)
  rw [h] at hx
  obtain ⟨⟨m, hm⟩, -⟩ := hx
  cases hm

/-! ## C1: an empty answer of the filter means forbidden -/

theorem GetGroupByNamePath.error_of_denied {api : AuthAPI σ} {u : AuthenticatedUser}
    {org name : String} {r : Except Error Group} {t : List Call}
    (hp : GetGroupByNamePath api u org name r t)
    (user : AuthenticatedUser) (urn : String) (action : Action) (g : Group)
    (h : Call.GetAuthorizedGroups user urn action [g] (.ok []) ∈ t) :
    ∃ e, r = .error e ∧ e.Code = .UNAUTHORIZED_RESOURCES_ERROR := by
  cases hp <;> simp_all [lookupTrace]

theorem Refused.code_of_denied {api : AuthAPI σ} {u : AuthenticatedUser}
    {s : σ} {org name : String} {a : Action} {e : Error} {t : List Call}
    (hp : Refused api u s org name a e t)
    (user : AuthenticatedUser) (urn : String) (action : Action) (g : Group)
    (h : Call.GetAuthorizedGroups user urn action [g] (.ok []) ∈ t) :
    e.Code = .UNAUTHORIZED_RESOURCES_ERROR := by
  cases hp with
  | lookup e t hl =>
    obtain ⟨e2, h1, h2⟩ := hl.error_of_denied _ _ _ _ h
    cases h1; exact h2
  | filterFailed => simp_all [openingTrace, lookupTrace]
  | denied => rfl

theorem GetGroupByNamePath.no_denied_of_nameFree {api : AuthAPI σ} {u : AuthenticatedUser}
    {org name : String} {r : Except Error Group} {t : List Call}
    (hp : GetGroupByNamePath api u org name r t) {group : Group} (hf : nameFree group r)
    (user : AuthenticatedUser) (urn : String) (action : Action) (g : Group) :
    Call.GetAuthorizedGroups user urn action [g] (.ok []) ∉ t := by
  intro h
  obtain ⟨e, rfl, he⟩ := hp.error_of_denied _ _ _ _ h
  exact hf.1 he

/-- C1: in every single-group operation of `group.go` (every operation but
`GetGroupList`), for every caller, arguments and world: whenever a call the
operation makes to `GetAuthorizedGroups` with a one-element candidate list is
answered with the empty list and no error, the operation returns an error whose
code is `UNAUTHORIZED_RESOURCES_ERROR`. -/
theorem empty_filter_answer_is_forbidden (api : AuthAPI σ) (u : AuthenticatedUser) (op : Op)
    (s : σ) (hop : ∀ org pathPrefix, op ≠ .GetGroupList org pathPrefix)
    (user : AuthenticatedUser) (urn : String) (action : Action) (g : Group)
    (h : Call.GetAuthorizedGroups user urn action [g] (.ok []) ∈ (run api u op s).trace) :
    ∃ e, (run api u op s).result = .error e ∧ e.Code = .UNAUTHORIZED_RESOURCES_ERROR := by
  have hp := run_path api u op s
  generalize (run api u op s).result = r at hp ⊢
  generalize (run api u op s).trace = t at hp h
  cases hp
  all_goals first
    | (simp_all [openingTrace, lookupTrace]; done)
    | exact ⟨_, rfl, Refused.code_of_denied (by assumption) _ _ _ _ h⟩
    | (have hm := GetGroupByNamePath.error_of_denied (by assumption) user urn action g
       simp_all [openingTrace, lookupTrace, nameFree, Except.map]
       done)
    | (have hm := GetGroupByNamePath.no_denied_of_nameFree (by assumption) (by assumption)
        user urn action g
       simp_all [openingTrace, lookupTrace]
       done)
    | (obtain ⟨e, rfl, he⟩ := GetGroupByNamePath.error_of_denied (by assumption) _ _ _ _ h
       exact ⟨e, rfl, he⟩)

/-- C1 at work: `alice` may read `dev` but not delete it, so `RemoveGroup` is
refused. -/
theorem empty_filter_answer_is_forbidden_witness :
    Call.GetAuthorizedGroups alice devGroup.Urn .GROUP_ACTION_DELETE_GROUP [devGroup] (.ok [])
        ∈ (run (exampleAPI (denyAction .GROUP_ACTION_DELETE_GROUP)) alice
            (.RemoveGroup "org1" "dev") 0).trace ∧
      ∃ e, (run (exampleAPI (denyAction .GROUP_ACTION_DELETE_GROUP)) alice
            (.RemoveGroup "org1" "dev") 0).result = .error e ∧
        e.Code = .UNAUTHORIZED_RESOURCES_ERROR :=
  ⟨by decide,
   empty_filter_answer_is_forbidden (exampleAPI (denyAction .GROUP_ACTION_DELETE_GROUP)) alice
    (.RemoveGroup "org1" "dev") 0 (fun _ _ h => Op.noConfusion h) alice devGroup.Urn
    .GROUP_ACTION_DELETE_GROUP devGroup (by decide)⟩

/-! ## C2: errors of the filter are handed on -/

theorem GetGroupByNamePath.repo_failure {api : AuthAPI σ} {u : AuthenticatedUser}
    {org name : String} {r : Except Error Group} {t : List Call}
    (hp : GetGroupByNamePath api u org name r t) :
    ∀ ev ∈ t, ∀ dbe, ev.repoError = some dbe →
      (∀ o n, ev = .RepoGetGroupByName o n (.error dbe) → dbe.Code ≠ .GROUP_NOT_FOUND) →
      r = .error ⟨.UNKNOWN_API_ERROR, dbe.Message⟩ := by
  cases hp <;>
    simp only [lookupTrace, List.forall_mem_cons, List.not_mem_nil, false_imp_iff,
      implies_true, and_true] <;>
    simp_all [Call.repoError, errorOf]

theorem Refused.refused_repo_failure {api : AuthAPI σ} {u : AuthenticatedUser}
    {s : σ} {org name : String} {a : Action} {e : Error} {t : List Call}
    (hp : Refused api u s org name a e t) :
    ∀ ev ∈ t, ∀ dbe, ev.repoError = some dbe →
      (∀ o n, ev = .RepoGetGroupByName o n (.error dbe) → dbe.Code ≠ .GROUP_NOT_FOUND) →
      e = ⟨.UNKNOWN_API_ERROR, dbe.Message⟩ := by
  cases hp with
  | lookup e t hl =>
    intro ev hev dbe h1 h2
    have := hl.repo_failure ev hev dbe h1 h2
    cases this; rfl
  | filterFailed =>
    simp only [openingTrace, lookupTrace, List.cons_append, List.nil_append,
      List.forall_mem_cons, List.not_mem_nil, false_imp_iff, implies_true, and_true]
    simp [Call.repoError, errorOf]
  | denied =>
    simp only [openingTrace, lookupTrace, List.cons_append, List.nil_append,
      List.forall_mem_cons, List.not_mem_nil, false_imp_iff, implies_true, and_true]
    simp [Call.repoError, errorOf]

set_option maxHeartbeats 1000000 in
theorem run_repo_failure (api : AuthAPI σ) (u : AuthenticatedUser) (op : Op) (s : σ) :
    ∀ ev ∈ (run api u op s).trace, ∀ dbe, ev.repoError = some dbe →
      (∀ o n, ev = .RepoGetGroupByName o n (.error dbe) → dbe.Code ≠ .GROUP_NOT_FOUND) →
      (run api u op s).result = .error ⟨.UNKNOWN_API_ERROR, dbe.Message⟩ := by
  have hp := run_path api u op s
  generalize (run api u op s).result = r at hp ⊢
  generalize (run api u op s).trace = t at hp ⊢
  cases hp
  case getGroupByName hq =>
    intro ev hev dbe h1 h2
    rw [hq.repo_failure ev hev dbe h1 h2]; rfl
  all_goals first
    | (intro ev hev dbe h1 h2
       have hx := Refused.refused_repo_failure (by assumption) ev hev dbe h1 h2
       rw [hx])
    | (cases (‹GetGroupByNamePath _ _ _ _ _ _› : _) <;>
        simp only [openingTrace, lookupTrace, List.cons_append, List.nil_append,
          List.append_assoc, List.forall_mem_cons, List.not_mem_nil, false_imp_iff,
          implies_true, and_true] <;>
        simp_all [Call.repoError, errorOf, nameFree])
    | (simp only [openingTrace, lookupTrace, List.cons_append, List.nil_append,
        List.forall_mem_cons, List.not_mem_nil, false_imp_iff, implies_true, and_true] <;>
       simp_all [Call.repoError, errorOf])

/-- C3: in every group operation, if a repository call made by the operation
fails with the database error `dbe` — the `GROUP_NOT_FOUND` answer of the
lookup by org and name apart — the operation returns the API error with code
`UNKNOWN_API_ERROR` and the message of `dbe`; so the failure yields neither
`UNAUTHORIZED_RESOURCES_ERROR` nor success. -/
theorem repo_failure_is_unknown_api_error (api : AuthAPI σ) (u : AuthenticatedUser) (op : Op)
    (s : σ) (ev : Call) (dbe : DBError) (hev : ev ∈ (run api u op s).trace)
    (hfail : ev.repoError = some dbe)
    (hnf : ∀ org name, ev = .RepoGetGroupByName org name (.error dbe) →
      dbe.Code ≠ .GROUP_NOT_FOUND) :
    (run api u op s).result = .error ⟨.UNKNOWN_API_ERROR, dbe.Message⟩ ∧
    (∀ e, (run api u op s).result = .error e → e.Code ≠ .UNAUTHORIZED_RESOURCES_ERROR) ∧
    (∀ v, (run api u op s).result ≠ .ok v) := by
  have h := run_repo_failure api u op s ev hev dbe hfail hnf
  rw [h]
  simp

/-- C3 at work: the repository fails while `RemoveGroup` deletes `dev`. -/
theorem repo_failure_is_unknown_api_error_witness :
    (run brokenAPI alice (.RemoveGroup "org1" "dev") 0).result =
        .error ⟨.UNKNOWN_API_ERROR, "connection lost"⟩ ∧
    (∀ e, (run brokenAPI alice (.RemoveGroup "org1" "dev") 0).result = .error e →
      e.Code ≠ .UNAUTHORIZED_RESOURCES_ERROR) ∧
    (∀ v, (run brokenAPI alice (.RemoveGroup "org1" "dev") 0).result ≠ .ok v) :=
  repo_failure_is_unknown_api_error brokenAPI alice (.RemoveGroup "org1" "dev") 0
    (.RepoRemoveGroup "g-1" (some ⟨.INTERNAL_ERROR, "connection lost"⟩))
    ⟨.INTERNAL_ERROR, "connection lost"⟩ (by decide) rfl (fun _ _ h => Call.noConfusion h)

/-! ## C4: the caller decides nothing by itself -/

theorem GetGroupByName_agrees (api : AuthAPI σ) (u1 u2 : AuthenticatedUser)
    (hf : ∀ urn action groups s,
      api.GetAuthorizedGroups u1 urn action groups s =
        api.GetAuthorizedGroups u2 urn action groups s)
    (org name : String) (s : σ) :
    (GetGroupByName api u1 org name s).agrees (GetGroupByName api u2 org name s) := by
  simp only [GetGroupByName, hf, Res.agrees]
  repeat' split
  all_goals simp_all [sameOutcome, repoCalls, Call.isRepo]

theorem AddGroup_agrees (api : AuthAPI σ) (u1 u2 : AuthenticatedUser)
    (hf : ∀ urn action groups s,
      api.GetAuthorizedGroups u1 urn action groups s =
        api.GetAuthorizedGroups u2 urn action groups s)
    (org name path : String) (s : σ) :
    (AddGroup api u1 org name path s).agrees (AddGroup api u2 org name path s) := by
  simp only [AddGroup, hf, Res.agrees]
  repeat' split
  all_goals simp_all [sameOutcome, repoCalls, Call.isRepo]

theorem GetGroupList_agrees (api : AuthAPI σ) (u1 u2 : AuthenticatedUser)
    (hf : ∀ urn action groups s,
      api.GetAuthorizedGroups u1 urn action groups s =
        api.GetAuthorizedGroups u2 urn action groups s)
    (org pathPrefix : String) (s : σ) :
    (GetGroupList api u1 org pathPrefix s).agrees (GetGroupList api u2 org pathPrefix s) := by
  simp only [GetGroupList, hf, Res.agrees]
  repeat' split
  all_goals simp_all [sameOutcome, repoCalls, Call.isRepo]

theorem AddMember_agrees (api : AuthAPI σ) (u1 u2 : AuthenticatedUser)
    (hf : ∀ urn action groups s,
      api.GetAuthorizedGroups u1 urn action groups s =
        api.GetAuthorizedGroups u2 urn action groups s)
    (hu : ∀ id s, api.GetUserByExternalId u1 id s = api.GetUserByExternalId u2 id s)
    (userID groupName org : String) (s : σ) :
    (AddMember api u1 userID groupName org s).agrees (AddMember api u2 userID groupName org s) := by
  obtain ⟨h1, h2, h3⟩ := GetGroupByName_agrees api u1 u2 hf org groupName s
  simp only [AddMember, hf, hu, Res.agrees]
  generalize (GetGroupByName api u1 org groupName s).result = r1 at h1 ⊢
  generalize (GetGroupByName api u1 org groupName s).trace = t1 at h3 ⊢
  generalize (GetGroupByName api u1 org groupName s).state = s1 at h2 ⊢
  generalize (GetGroupByName api u2 org groupName s).result = r2 at h1 ⊢
  generalize (GetGroupByName api u2 org groupName s).trace = t2 at h3 ⊢
  generalize (GetGroupByName api u2 org groupName s).state = s2 at h2 ⊢
  subst h2
  cases r1 <;> cases r2 <;> simp only [sameOutcome] at h1
  · repeat' split
    all_goals simp_all [sameOutcome, repoCalls, Call.isRepo]
  · subst h1
    repeat' split
    all_goals simp_all [sameOutcome, repoCalls, Call.isRepo]

theorem RemoveMember_agrees (api : AuthAPI σ) (u1 u2 : AuthenticatedUser)
    (hf : ∀ urn action groups s,
      api.GetAuthorizedGroups u1 urn action groups s =
        api.GetAuthorizedGroups u2 urn action groups s)
    (hu : ∀ id s, api.GetUserByExternalId u1 id s = api.GetUserByExternalId u2 id s)
    (userID groupName org : String) (s : σ) :
    (RemoveMember api u1 userID groupName org s).agrees (RemoveMember api u2 userID groupName org s) := by
  obtain ⟨h1, h2, h3⟩ := GetGroupByName_agrees api u1 u2 hf org groupName s
  simp only [RemoveMember, hf, hu, Res.agrees]
  generalize (GetGroupByName api u1 org groupName s).result = r1 at h1 ⊢
  generalize (GetGroupByName api u1 org groupName s).trace = t1 at h3 ⊢
  generalize (GetGroupByName api u1 org groupName s).state = s1 at h2 ⊢
  generalize (GetGroupByName api u2 org groupName s).result = r2 at h1 ⊢
  generalize (GetGroupByName api u2 org groupName s).trace = t2 at h3 ⊢
  generalize (GetGroupByName api u2 org groupName s).state = s2 at h2 ⊢
  subst h2
  cases r1 <;> cases r2 <;> simp only [sameOutcome] at h1
  · repeat' split
    all_goals simp_all [sameOutcome, repoCalls, Call.isRepo]
  · subst h1
    repeat' split
    all_goals simp_all [sameOutcome, repoCalls, Call.isRepo]

theorem ListMembers_agrees (api : AuthAPI σ) (u1 u2 : AuthenticatedUser)
    (hf : ∀ urn action groups s,
      api.GetAuthorizedGroups u1 urn action groups s =
        api.GetAuthorizedGroups u2 urn action groups s)
    (org groupName : String) (s : σ) :
    (ListMembers api u1 org groupName s).agrees (ListMembers api u2 org groupName s) := by
  obtain ⟨h1, h2, h3⟩ := GetGroupByName_agrees api u1 u2 hf org groupName s
  simp only [ListMembers, hf, Res.agrees]
  generalize (GetGroupByName api u1 org groupName s).result = r1 at h1 ⊢
  generalize (GetGroupByName api u1 org groupName s).trace = t1 at h3 ⊢
  generalize (GetGroupByName api u1 org groupName s).state = s1 at h2 ⊢
  generalize (GetGroupByName api u2 org groupName s).result = r2 at h1 ⊢
  generalize (GetGroupByName api u2 org groupName s).trace = t2 at h3 ⊢
  generalize (GetGroupByName api u2 org groupName s).state = s2 at h2 ⊢
  subst h2
  cases r1 <;> cases r2 <;> simp only [sameOutcome] at h1
  · repeat' split
    all_goals simp_all [sameOutcome, repoCalls, Call.isRepo]
  · subst h1
    repeat' split
    all_goals simp_all [sameOutcome, repoCalls, Call.isRepo]

theorem RemoveGroup_agrees (api : AuthAPI σ) (u1 u2 : AuthenticatedUser)
    (hf : ∀ urn action groups s,
      api.GetAuthorizedGroups u1 urn action groups s =
        api.GetAuthorizedGroups u2 urn action groups s)
    (org name : String) (s : σ) :
    (RemoveGroup api u1 org name s).agrees (RemoveGroup api u2 org name s) := by
  obtain ⟨h1, h2, h3⟩ := GetGroupByName_agrees api u1 u2 hf org name s
  simp only [RemoveGroup, hf, Res.agrees]
  generalize (GetGroupByName api u1 org name s).result = r1 at h1 ⊢
  generalize (GetGroupByName api u1 org name s).trace = t1 at h3 ⊢
  generalize (GetGroupByName api u1 org name s).state = s1 at h2 ⊢
  generalize (GetGroupByName api u2 org name s).result = r2 at h1 ⊢
  generalize (GetGroupByName api u2 org name s).trace = t2 at h3 ⊢
  generalize (GetGroupByName api u2 org name s).state = s2 at h2 ⊢
  subst h2
  cases r1 <;> cases r2 <;> simp only [sameOutcome] at h1
  · repeat' split
    all_goals simp_all [sameOutcome, repoCalls, Call.isRepo]
  · subst h1
    repeat' split
    all_goals simp_all [sameOutcome, repoCalls, Call.isRepo]

theorem AttachPolicyToGroup_agrees (api : AuthAPI σ) (u1 u2 : AuthenticatedUser)
    (hf : ∀ urn action groups s,
      api.GetAuthorizedGroups u1 urn action groups s =
        api.GetAuthorizedGroups u2 urn action groups s)
    (hp : ∀ org name s, api.GetPolicyByName u1 org name s = api.GetPolicyByName u2 org name s)
    (org groupName policyName : String) (s : σ) :
    (AttachPolicyToGroup api u1 org groupName policyName s).agrees (AttachPolicyToGroup api u2 org groupName policyName s) := by
  obtain ⟨h1, h2, h3⟩ := GetGroupByName_agrees api u1 u2 hf org groupName s
  simp only [AttachPolicyToGroup, hf, hp, Res.agrees]
  generalize (GetGroupByName api u1 org groupName s).result = r1 at h1 ⊢
  generalize (GetGroupByName api u1 org groupName s).trace = t1 at h3 ⊢
  generalize (GetGroupByName api u1 org groupName s).state = s1 at h2 ⊢
  generalize (GetGroupByName api u2 org groupName s).result = r2 at h1 ⊢
  generalize (GetGroupByName api u2 org groupName s).trace = t2 at h3 ⊢
  generalize (GetGroupByName api u2 org groupName s).state = s2 at h2 ⊢
  subst h2
  cases r1 <;> cases r2 <;> simp only [sameOutcome] at h1
  · repeat' split
    all_goals simp_all [sameOutcome, repoCalls, Call.isRepo]
  · subst h1
    repeat' split
    all_goals simp_all [sameOutcome, repoCalls, Call.isRepo]

theorem DetachPolicyToGroup_agrees (api : AuthAPI σ) (u1 u2 : AuthenticatedUser)
    (hf : ∀ urn action groups s,
      api.GetAuthorizedGroups u1 urn action groups s =
        api.GetAuthorizedGroups u2 urn action groups s)
    (hp : ∀ org name s, api.GetPolicyByName u1 org name s = api.GetPolicyByName u2 org name s)
    (org groupName policyName : String) (s : σ) :
    (DetachPolicyToGroup api u1 org groupName policyName s).agrees (DetachPolicyToGroup api u2 org groupName policyName s) := by
  obtain ⟨h1, h2, h3⟩ := GetGroupByName_agrees api u1 u2 hf org groupName s
  simp only [DetachPolicyToGroup, hf, hp, Res.agrees]
  generalize (GetGroupByName api u1 org groupName s).result = r1 at h1 ⊢
  generalize (GetGroupByName api u1 org groupName s).trace = t1 at h3 ⊢
  generalize (GetGroupByName api u1 org groupName s).state = s1 at h2 ⊢
  generalize (GetGroupByName api u2 org groupName s).result = r2 at h1 ⊢
  generalize (GetGroupByName api u2 org groupName s).trace = t2 at h3 ⊢
  generalize (GetGroupByName api u2 org groupName s).state = s2 at h2 ⊢
  subst h2
  cases r1 <;> cases r2 <;> simp only [sameOutcome] at h1
  · repeat' split
    all_goals simp_all [sameOutcome, repoCalls, Call.isRepo]
  · subst h1
    repeat' split
    all_goals simp_all [sameOutcome, repoCalls, Call.isRepo]

theorem ListAttachedGroupPolicies_agrees (api : AuthAPI σ) (u1 u2 : AuthenticatedUser)
    (hf : ∀ urn action groups s,
      api.GetAuthorizedGroups u1 urn action groups s =
        api.GetAuthorizedGroups u2 urn action groups s)
    (org groupName : String) (s : σ) :
    (ListAttachedGroupPolicies api u1 org groupName s).agrees (ListAttachedGroupPolicies api u2 org groupName s) := by
  obtain ⟨h1, h2, h3⟩ := GetGroupByName_agrees api u1 u2 hf org groupName s
  simp only [ListAttachedGroupPolicies, hf, Res.agrees]
  generalize (GetGroupByName api u1 org groupName s).result = r1 at h1 ⊢
  generalize (GetGroupByName api u1 org groupName s).trace = t1 at h3 ⊢
  generalize (GetGroupByName api u1 org groupName s).state = s1 at h2 ⊢
  generalize (GetGroupByName api u2 org groupName s).result = r2 at h1 ⊢
  generalize (GetGroupByName api u2 org groupName s).trace = t2 at h3 ⊢
  generalize (GetGroupByName api u2 org groupName s).state = s2 at h2 ⊢
  subst h2
  cases r1 <;> cases r2 <;> simp only [sameOutcome] at h1
  · repeat' split
    all_goals simp_all [sameOutcome, repoCalls, Call.isRepo]
  · subst h1
    repeat' split
    all_goals simp_all [sameOutcome, repoCalls, Call.isRepo]

theorem UpdateGroup_agrees (api : AuthAPI σ) (u1 u2 : AuthenticatedUser)
    (hf : ∀ urn action groups s,
      api.GetAuthorizedGroups u1 urn action groups s =
        api.GetAuthorizedGroups u2 urn action groups s)
    (org groupName newName newPath : String) (s : σ) :
    (UpdateGroup api u1 org groupName newName newPath s).agrees
      (UpdateGroup api u2 org groupName newName newPath s) := by
  obtain ⟨h1, h2, h3⟩ := GetGroupByName_agrees api u1 u2 hf org groupName s
  simp only [UpdateGroup, hf, Res.agrees]
  generalize (GetGroupByName api u1 org groupName s).result = r1 at h1 ⊢
  generalize (GetGroupByName api u1 org groupName s).trace = t1 at h3 ⊢
  generalize (GetGroupByName api u1 org groupName s).state = s1 at h2 ⊢
  generalize (GetGroupByName api u2 org groupName s).result = r2 at h1 ⊢
  generalize (GetGroupByName api u2 org groupName s).trace = t2 at h3 ⊢
  generalize (GetGroupByName api u2 org groupName s).state = s2 at h2 ⊢
  subst h2
  cases r1 <;> cases r2 <;> simp only [sameOutcome] at h1
  · repeat' split
    all_goals simp_all [sameOutcome, repoCalls, Call.isRepo]
  · subst h1
    rename_i g
    simp only []
    obtain ⟨k1, k2, k3⟩ := GetGroupByName_agrees api u1 u2 hf org newName
      (api.GetAuthorizedGroups u2 g.Urn .GROUP_ACTION_UPDATE_GROUP [g] s1).2
    generalize (GetGroupByName api u1 org newName _).result = n1 at k1 ⊢
    generalize (GetGroupByName api u1 org newName _).trace = tn1 at k3 ⊢
    generalize (GetGroupByName api u1 org newName _).state = sn1 at k2 ⊢
    generalize (GetGroupByName api u2 org newName _).result = n2 at k1 ⊢
    generalize (GetGroupByName api u2 org newName _).trace = tn2 at k3 ⊢
    generalize (GetGroupByName api u2 org newName _).state = sn2 at k2 ⊢
    subst k2
    cases n1 <;> cases n2 <;> simp only [sameOutcome] at k1
    · repeat' split
      all_goals simp_all [sameOutcome, repoCalls, Call.isRepo]
    · subst k1
      repeat' split
      all_goals simp_all [sameOutcome, repoCalls, Call.isRepo]

theorem Res.agrees_as {α : Type} (f : α → Value) {a b : Res σ α} (h : a.agrees b) :
    (a.as f).agrees (b.as f) := by
  obtain ⟨h1, h2, h3⟩ := h
  refine ⟨?_, h2, h3⟩
  simp only [Res.as]
  generalize a.result = r1 at h1 ⊢
  generalize b.result = r2 at h1 ⊢
  cases r1 <;> cases r2 <;> simp_all [sameOutcome, Except.map]

/-- C4: the group operations add no authorization rule of their own.  For two
callers `u1` and `u2` and the same other arguments and world: if the filter,
the user lookup and the policy lookup answer `u1` as they answer `u2` (the
repository is never told the caller), every operation returns the same value
or errors with the same code, makes the same repository calls in the same order
and leaves the same world; the messages of the two errors are equal as well,
except when the code is `UNAUTHORIZED_RESOURCES_ERROR`, whose text names the
caller. -/
theorem caller_decides_nothing (api : AuthAPI σ) (u1 u2 : AuthenticatedUser) (op : Op) (s : σ)
    (hf : ∀ urn action groups s,
      api.GetAuthorizedGroups u1 urn action groups s =
        api.GetAuthorizedGroups u2 urn action groups s)
    (hu : ∀ id s, api.GetUserByExternalId u1 id s = api.GetUserByExternalId u2 id s)
    (hp : ∀ org name s, api.GetPolicyByName u1 org name s = api.GetPolicyByName u2 org name s) :
    sameOutcome (run api u1 op s).result (run api u2 op s).result ∧
    repoCalls (run api u1 op s).trace = repoCalls (run api u2 op s).trace ∧
    (run api u1 op s).state = (run api u2 op s).state := by
  have key : (run api u1 op s).agrees (run api u2 op s) := by
    cases op with
    | AddGroup org name path => exact Res.agrees_as _ (AddGroup_agrees api u1 u2 hf _ _ _ s)
    | AddMember userID groupName org =>
      exact Res.agrees_as _ (AddMember_agrees api u1 u2 hf hu _ _ _ s)
    | RemoveMember userID groupName org =>
      exact Res.agrees_as _ (RemoveMember_agrees api u1 u2 hf hu _ _ _ s)
    | ListMembers org groupName => exact Res.agrees_as _ (ListMembers_agrees api u1 u2 hf _ _ s)
    | RemoveGroup org name => exact Res.agrees_as _ (RemoveGroup_agrees api u1 u2 hf _ _ s)
    | GetGroupByName org name =>
      exact Res.agrees_as _ (GetGroupByName_agrees api u1 u2 hf _ _ s)
    | GetGroupList org pathPrefix =>
      exact Res.agrees_as _ (GetGroupList_agrees api u1 u2 hf _ _ s)
    | UpdateGroup org groupName newName newPath =>
      exact Res.agrees_as _ (UpdateGroup_agrees api u1 u2 hf _ _ _ _ s)
    | AttachPolicyToGroup org groupName policyName =>
      exact Res.agrees_as _ (AttachPolicyToGroup_agrees api u1 u2 hf hp _ _ _ s)
    | DetachPolicyToGroup org groupName policyName =>
      exact Res.agrees_as _ (DetachPolicyToGroup_agrees api u1 u2 hf hp _ _ _ s)
    | ListAttachedGroupPolicies org groupName =>
      exact Res.agrees_as _ (ListAttachedGroupPolicies_agrees api u1 u2 hf _ _ s)
  exact ⟨key.1, key.2.2, key.2.1⟩

/-- C4 at work: `alice` and `bob` are both refused the deletion of `dev`, with
messages that name each of them. -/
theorem caller_decides_nothing_witness :
    sameOutcome
      (run (exampleAPI (denyAction .GROUP_ACTION_DELETE_GROUP)) alice
        (.RemoveGroup "org1" "dev") 0).result
      (run (exampleAPI (denyAction .GROUP_ACTION_DELETE_GROUP)) bob
        (.RemoveGroup "org1" "dev") 0).result ∧
    repoCalls (run (exampleAPI (denyAction .GROUP_ACTION_DELETE_GROUP)) alice
        (.RemoveGroup "org1" "dev") 0).trace =
      repoCalls (run (exampleAPI (denyAction .GROUP_ACTION_DELETE_GROUP)) bob
        (.RemoveGroup "org1" "dev") 0).trace ∧
    (run (exampleAPI (denyAction .GROUP_ACTION_DELETE_GROUP)) alice
        (.RemoveGroup "org1" "dev") 0).state =
      (run (exampleAPI (denyAction .GROUP_ACTION_DELETE_GROUP)) bob
        (.RemoveGroup "org1" "dev") 0).state :=
  caller_decides_nothing (exampleAPI (denyAction .GROUP_ACTION_DELETE_GROUP)) alice bob
    (.RemoveGroup "org1" "dev") 0 (fun _ _ _ _ => rfl) (fun _ _ => rfl) (fun _ _ _ => rfl)

/-! ## C5: `UpdateGroup` and the uniqueness of names -/

theorem cons_sublist_singleton {α : Type} {a b : α} {l : List α} :
    (a :: l).Sublist [b] ↔ a = b ∧ l = [] := by
  constructor
  · intro h
    cases h with
    | cons _ h => simp at h
    | cons₂ _ h => simp at h; exact ⟨rfl, h⟩
  · rintro ⟨rfl, rfl⟩
    exact List.Sublist.refl _

theorem length_lt_one_of_ne_nil {α : Type} {l : List α} (h : l ≠ []) : ¬ l.length < 1 := by
  cases l with
  | nil => exact absurd rfl h
  | cons a l => simp

theorem GetGroupByNamePath.filter_after_lookup {api : AuthAPI σ} {u : AuthenticatedUser}
    {org name : String} {r : Except Error Group} {t : List Call}
    (hp : GetGroupByNamePath api u org name r t) (i : Nat) (ev : Call)
    (h : t[i]? = some ev) (hf : ev.isFilter = true) :
    0 < i ∧ ∃ ret, t[0]? = some (Call.RepoGetGroupByName org name ret) := by
  cases hp <;> rcases i with _ | i <;> simp [lookupTrace] at h ⊢ <;> subst h <;>
    simp [Call.isFilter] at hf

theorem Refused.refused_filter_after_lookup {api : AuthAPI σ} {u : AuthenticatedUser}
    {s : σ} {org name : String} {a : Action} {e : Error} {t : List Call}
    (hp : Refused api u s org name a e t) (i : Nat) (ev : Call)
    (h : t[i]? = some ev) (hf : ev.isFilter = true) :
    0 < i ∧ ∃ ret, t[0]? = some (Call.RepoGetGroupByName org name ret) := by
  cases hp with
  | lookup e t hl => exact hl.filter_after_lookup i ev h hf
  | filterFailed =>
    rcases i with _ | i <;> simp [openingTrace, lookupTrace] at h ⊢
    subst h; simp [Call.isFilter] at hf
  | denied =>
    rcases i with _ | i <;> simp [openingTrace, lookupTrace] at h ⊢
    subst h; simp [Call.isFilter] at hf

/-- C7, as the code has it: when call number `i` of an operation (counted from
0) is a call to `GetAuthorizedGroups`, then, for every operation on an existing
group, it is not the first call and the first call is the repository lookup of
the target group by org and name; for `GetGroupList` it is not the first call
and the first call is the repository query `GetGroupsFiltered`; for `AddGroup`
it is the first call, made right after field validation and before the
repository is asked whether the group exists. -/
theorem filter_call_follows_lookup (api : AuthAPI σ) (u : AuthenticatedUser) (op : Op) (s : σ) (i : Nat) (ev : Call)
    (h : (run api u op s).trace[i]? = some ev) (hf : ev.isFilter = true) :
    (∀ org name path, op = .AddGroup org name path → i = 0) ∧
    (∀ org pathPrefix, op = .GetGroupList org pathPrefix →
      0 < i ∧ ∃ p ret, (run api u op s).trace[0]? = some (.RepoGetGroupsFiltered org p ret)) ∧
    (∀ org name, op.target = some (org, name) → (∀ o n p, op ≠ .AddGroup o n p) →
      0 < i ∧ ∃ ret, (run api u op s).trace[0]? = some (.RepoGetGroupByName org name ret)) := by
  have hp := run_path api u op s
  generalize (run api u op s).result = r at hp
  generalize (run api u op s).trace = t at hp h ⊢
  cases hp
  case invalid => simp at h
  case addGroup_filterFailed | addGroup_denied =>
    rcases i with _ | i <;> simp [Op.target] at h ⊢
  case addGroup_exists | addGroup_lookupFailed =>
    rcases i with _ | _ | i <;> simp [Op.target] at h ⊢
    subst h; simp [Call.isFilter] at hf
  case addGroup_writeFailed | addGroup_done =>
    rcases i with _ | _ | _ | i <;> simp [Op.target] at h ⊢ <;> subst h <;>
      simp [Call.isFilter] at hf
  case getGroupByName hq =>
    have hx := hq.filter_after_lookup i ev h hf
    simp_all [Op.target]
  case removeGroup_refused | listMembers_refused | listAttached_refused | addMember_refused
      | removeMember_refused | attach_refused | detach_refused | update_refused =>
    have hx := Refused.refused_filter_after_lookup (by assumption) i ev h hf
    simp_all [Op.target]
  all_goals
    rcases i with _ | i <;> simp [openingTrace, lookupTrace, Op.target] at h ⊢
    subst h; simp [Call.isFilter] at hf

/-- C7 at work: the second call of `RemoveGroup` is a filter call and follows
the lookup of `dev`. -/
theorem filter_call_follows_lookup_witness :
    0 < 1 ∧ ∃ ret, (run (exampleAPI allowAll) alice (.RemoveGroup "org1" "dev") 0).trace[0]? =
      some (.RepoGetGroupByName "org1" "dev" ret) :=
  (filter_call_follows_lookup (exampleAPI allowAll) alice (.RemoveGroup "org1" "dev") 0 1
    (.GetAuthorizedGroups alice devGroup.Urn .GROUP_ACTION_GET_GROUP [devGroup]
      (.ok [devGroup])) (by decide) rfl).2.2 "org1" "dev" rfl (fun _ _ _ h => Op.noConfusion h)

/-- C7 as stated fails for `AddGroup`: its first call is the filter call and
the repository lookup by org and name comes second. -/
theorem AddGroup_asks_filter_before_lookup :
    (run (exampleAPI allowAll) alice (.AddGroup "org1" "qa" "/teams") 0).trace[0]? =
      some (.GetAuthorizedGroups alice qaGroup.Urn .GROUP_ACTION_CREATE_GROUP [qaGroup]
        (.ok [qaGroup])) ∧
    (run (exampleAPI allowAll) alice (.AddGroup "org1" "qa" "/teams") 0).trace[1]? =
      some (.RepoGetGroupByName "org1" "qa" (.error ⟨.GROUP_NOT_FOUND, "group not found"⟩)) := by
  decide

/-! ## C8: how often the filter is asked -/

/-- C8, as the code has it: a run that ends in success asks the filter exactly
once in `AddGroup`, `GetGroupByName` and `GetGroupList`, exactly twice in
`AddMember`, `RemoveMember`, `ListMembers`, `RemoveGroup`,
`AttachPolicyToGroup`, `DetachPolicyToGroup` and `ListAttachedGroupPolicies`,
and three or four times in `UpdateGroup`. -/
theorem auth_calls_of_successful_run (api : AuthAPI σ) (u : AuthenticatedUser) (op : Op) (s : σ) (v : Value)
    (h : (run api u op s).result = .ok v) :
    authCalls (run api u op s).trace ∈ successfulAuthCalls op := by
  have hp := run_path api u op s
  generalize (run api u op s).result = r at hp h
  generalize (run api u op s).trace = t at hp ⊢
  cases hp
  case getGroupByName r hq =>
    cases hq <;> simp_all [Except.map, authCalls, lookupTrace, Call.isFilter, successfulAuthCalls]
  case update_done hq _ _ =>
    cases hq <;>
      simp_all [authCalls, openingTrace, lookupTrace, Call.isFilter, successfulAuthCalls,
        nameFree, ownChecks]
  all_goals first
    | (cases h; done)
    | simp [authCalls, openingTrace, lookupTrace, Call.isFilter, successfulAuthCalls]

/-- C8 at work: renaming `dev` to the free name `qa` asks the filter three
times. -/
theorem auth_calls_of_successful_run_witness :
    authCalls (run (exampleAPI allowAll) alice (.UpdateGroup "org1" "dev" "qa" "/new") 0).trace
      ∈ [3, 4] :=
  auth_calls_of_successful_run (exampleAPI allowAll) alice
    (.UpdateGroup "org1" "dev" "qa" "/new") 0
    (.group { devGroup with Name := "qa", Path := "/new", Urn := "urn:org1:group:/new/qa" })
    (by decide)

/-- C8 as stated fails: a successful `AddMember` asks the filter twice, once
inside `GetGroupByName` and once for `GROUP_ACTION_ADD_MEMBER`. -/
theorem AddMember_asks_filter_twice :
    (run (exampleAPI allowAll) alice (.AddMember "carol" "dev" "org1") 0).result = .ok .none ∧
    authCalls (run (exampleAPI allowAll) alice (.AddMember "carol" "dev" "org1") 0).trace = 2 := by
  decide

/-! ## C9: field validation comes first -/

/-- C9: field validation comes first.  If a name, org, path or external-id
argument of a group operation is rejected by its validator (an empty org and an
empty path prefix of `GetGroupList` apart), the operation returns an error with
code `INVALID_PARAMETER_ERROR` and calls no collaborator at all: neither the
repository nor the authorization filter. -/
theorem invalid_fields_are_rejected_first (api : AuthAPI σ) (u : AuthenticatedUser) (op : Op) (s : σ)
    (h : fieldsRejected api op = true) :
    (∃ m, (run api u op s).result = .error ⟨.INVALID_PARAMETER_ERROR, m⟩) ∧
    (run api u op s).trace = [] := by
  have hp := run_path api u op s
  generalize (run api u op s).result = r at hp ⊢
  generalize (run api u op s).trace = t at hp ⊢
  cases hp
  case invalid => exact ⟨⟨_, rfl⟩, rfl⟩
  case getGroupByName hq =>
    obtain ⟨⟨m, hm⟩, ht⟩ := hq.of_invalid (by simpa [fieldsRejected, imp_iff_not_or] using h)
    subst hm
    exact ⟨⟨m, rfl⟩, ht⟩
  case update_refused org groupName newName newPath e hv hq =>
    have hbad : (api.IsValidName groupName && api.IsValidOrg org) = false := by
      simp [fieldsRejected, ownChecks] at h hv
      simp_all
    obtain ⟨⟨m, hm⟩, ht⟩ := Refused.refused_of_invalid hq hbad
    subst hm
    exact ⟨⟨m, rfl⟩, ht⟩
  case update_exists | update_lookupFailed | update_filterFailed | update_denied
      | update_writeFailed | update_done =>
    exfalso
    have hres := (‹(GetGroupByName api u _ _ s).result = Except.ok _› : _)
    have hval := GetGroupByName_ok_valid hres
    simp_all [fieldsRejected, ownChecks]
  case getGroupList_repoFailed | getGroupList_filterFailed | getGroupList_done =>
    exfalso
    simp_all [fieldsRejected, ownChecks, Nat.pos_iff_ne_zero]
    aesop
  all_goals
    exfalso
    simp_all [fieldsRejected, ownChecks]

/-- C9 at work: the empty `groupName` of `UpdateGroup`, which is validated by the
nested `GetGroupByName`, is rejected before any call. -/
theorem invalid_fields_are_rejected_first_witness :
    fieldsRejected (exampleAPI allowAll) (.UpdateGroup "org1" "" "qa" "/new") = true ∧
    (∃ m, (run (exampleAPI allowAll) alice (.UpdateGroup "org1" "" "qa" "/new") 0).result
      = .error ⟨.INVALID_PARAMETER_ERROR, m⟩) ∧
    (run (exampleAPI allowAll) alice (.UpdateGroup "org1" "" "qa" "/new") 0).trace = [] :=
  ⟨by decide, invalid_fields_are_rejected_first (exampleAPI allowAll) alice
    (.UpdateGroup "org1" "" "qa" "/new") 0 (by decide)⟩

/-- The exemption of C9: `GetGroupList` passes an empty org and an empty path
prefix on without validating them, although both validators reject the empty
string. -/
theorem GetGroupList_accepts_empty_fields :
    (exampleAPI allowAll).IsValidOrg "" = false ∧
    (exampleAPI allowAll).IsValidPath "" = false ∧
    (run (exampleAPI allowAll) alice (.GetGroupList "" "") 0).trace ≠ [] ∧
    ∃ v, (run (exampleAPI allowAll) alice (.GetGroupList "" "") 0).result = .ok v := by
  refine ⟨by decide, by decide, by decide, _, rfl⟩

/-! ## C10: what `UpdateGroup` writes -/

theorem GetGroupByNamePath.no_update {api : AuthAPI σ} {u : AuthenticatedUser}
    {org name : String} {r : Except Error Group} {t : List Call}
    (hp : GetGroupByNamePath api u org name r t) (g : Group) (n p urn : String)
    (ret : Except DBError Group) : Call.RepoUpdateGroup g n p urn ret ∉ t := by
  cases hp <;> simp [lookupTrace]

theorem Refused.refused_no_update {api : AuthAPI σ} {u : AuthenticatedUser}
    {s : σ} {org name : String} {a : Action} {e : Error} {t : List Call}
    (hp : Refused api u s org name a e t) (g : Group) (n p urn : String)
    (ret : Except DBError Group) : Call.RepoUpdateGroup g n p urn ret ∉ t := by
  cases hp with
  | lookup e t hl => exact hl.no_update g n p urn ret
  | filterFailed => simp [openingTrace, lookupTrace]
  | denied => simp [openingTrace, lookupTrace]

/-- C11: the URN of a group is a function of `(org, path, name)`.  The group
`createGroup` builds carries `org`, `name` and `path`, its `GetUrn()` is its
`Urn` field, and that is `CreateUrn(org, RESOURCE_GROUP, path, name)` in every
world, so whatever UUID and time the world `s` or the world `s2` hands out,
two calls with the same arguments give equal URNs. -/
theorem createGroup_urn_is_determined (api : AuthAPI σ) (org name path : String) (s s2 : σ) :
    (createGroup api org name path s).1.Org = org ∧
    (createGroup api org name path s).1.Name = name ∧
    (createGroup api org name path s).1.Path = path ∧
    (createGroup api org name path s).1.GetUrn = (createGroup api org name path s).1.Urn ∧
    (createGroup api org name path s).1.Urn = api.CreateUrn org api.RESOURCE_GROUP path name ∧
    (createGroup api org name path s).1.GetUrn = (createGroup api org name path s2).1.GetUrn :=
  ⟨rfl, rfl, rfl, rfl, rfl, rfl⟩

/-- Two calls of `createGroup` with the same arguments: the IDs and the
creation times differ, the URNs do not. -/
theorem createGroup_twice :
    (createGroup (exampleAPI allowAll) "org1" "qa" "/teams" 0).1.ID
      ≠ (createGroup (exampleAPI allowAll) "org1" "qa" "/teams" 2).1.ID ∧
    (createGroup (exampleAPI allowAll) "org1" "qa" "/teams" 0).1.CreateAt
      ≠ (createGroup (exampleAPI allowAll) "org1" "qa" "/teams" 2).1.CreateAt ∧
    (createGroup (exampleAPI allowAll) "org1" "qa" "/teams" 0).1.Urn
      = (createGroup (exampleAPI allowAll) "org1" "qa" "/teams" 2).1.Urn := by
  decide

/-! ## C12: the listings keep order and drop nothing -/

/-- When the filter lets no group through, `GetGroupList` succeeds with the
empty slice, which is not the nil slice; the filter keeps both groups of the
repository for a caller it allows everything, in the order of the repository. -/
theorem GetGroupList_results :
    (GetGroupList (exampleAPI (denyAction .GROUP_ACTION_LIST_GROUPS)) alice "org1" "" 0).result
      = .ok (.mk []) ∧
    (GetGroupList (exampleAPI allowAll) alice "org1" "" 0).result
      = .ok (.mk [⟨"org1", "dev"⟩, ⟨"org1", "ops"⟩]) := by
  decide

/-! ## C13: the URN prefix `GetGroupList` authorizes against -/

/-- Listing the groups of every organization asks the filter about `"*"`. -/
theorem GetGroupList_of_any_org :
    (GetGroupList (exampleAPI allowAll) alice "" "/teams" 0).trace =
      [Call.RepoGetGroupsFiltered "" "/teams" (.ok [devGroup, opsGroup]),
       Call.GetAuthorizedGroups alice "*" .GROUP_ACTION_LIST_GROUPS [devGroup, opsGroup]
        (.ok [devGroup, opsGroup])] ∧
    (GetGroupList (exampleAPI allowAll) alice "org1" "" 0).trace =
      [Call.RepoGetGroupsFiltered "org1" "/" (.ok [devGroup, opsGroup]),
       Call.GetAuthorizedGroups alice "urn:org1:group:/*" .GROUP_ACTION_LIST_GROUPS
        [devGroup, opsGroup] (.ok [devGroup, opsGroup])] := by
  decide

/-! ## C15: `UpdateGroup` asks for the old and for the new resource -/

theorem GetGroupByNamePath.no_update_check {api : AuthAPI σ} {u : AuthenticatedUser}
    {org name : String} {r : Except Error Group} {t : List Call}
    (hp : GetGroupByNamePath api u org name r t) (user : AuthenticatedUser) (urn : String)
    (cands : List Group) (ret : Except Error (List Group)) :
    Call.GetAuthorizedGroups user urn .GROUP_ACTION_UPDATE_GROUP cands ret ∉ t := by
  cases hp <;> simp [lookupTrace]

/-- C15: `UpdateGroup` needs the update permission on the old and on the new
resource.  When `UpdateGroup` calls `GroupRepo.UpdateGroup`, the filter has
answered `GROUP_ACTION_UPDATE_GROUP` with a non-empty list both for the URN of
the group fetched for `(org, groupName)`, with that group as the candidate, and
for the URN `CreateUrn(org, RESOURCE_GROUP, newPath, newName)`, with the group
built from `org`, `newName` and `newPath` as the candidate.  When the filter
answers a `GROUP_ACTION_UPDATE_GROUP` call with the empty list, `UpdateGroup`
does not call `GroupRepo.UpdateGroup` and returns
`UNAUTHORIZED_RESOURCES_ERROR`. -/
theorem UpdateGroup_needs_both_permissions (api : AuthAPI σ) (u : AuthenticatedUser)
    (org groupName newName newPath : String) (s : σ) :
    ((∃ g n p urn ret, Call.RepoUpdateGroup g n p urn ret
        ∈ (UpdateGroup api u org groupName newName newPath s).trace) →
      ∃ g gs renamed gs2,
        (GetGroupByName api u org groupName s).result = .ok g ∧
        Call.GetAuthorizedGroups u g.Urn .GROUP_ACTION_UPDATE_GROUP [g] (.ok gs)
          ∈ (UpdateGroup api u org groupName newName newPath s).trace ∧ gs ≠ [] ∧
        renamed.Org = org ∧ renamed.Name = newName ∧ renamed.Path = newPath ∧
        renamed.Urn = api.CreateUrn org api.RESOURCE_GROUP newPath newName ∧
        Call.GetAuthorizedGroups u renamed.Urn .GROUP_ACTION_UPDATE_GROUP [renamed] (.ok gs2)
          ∈ (UpdateGroup api u org groupName newName newPath s).trace ∧ gs2 ≠ []) ∧
    (∀ user urn cands, Call.GetAuthorizedGroups user urn .GROUP_ACTION_UPDATE_GROUP cands (.ok [])
        ∈ (UpdateGroup api u org groupName newName newPath s).trace →
      (∀ g n p urn ret, Call.RepoUpdateGroup g n p urn ret
        ∉ (UpdateGroup api u org groupName newName newPath s).trace) ∧
      ∃ m, (UpdateGroup api u org groupName newName newPath s).result
        = .error ⟨.UNAUTHORIZED_RESOURCES_ERROR, m⟩) := by
  have hp := run_path api u (.UpdateGroup org groupName newName newPath) s
  have ht : (run api u (.UpdateGroup org groupName newName newPath) s).trace
      = (UpdateGroup api u org groupName newName newPath s).trace := rfl
  have hr : (run api u (.UpdateGroup org groupName newName newPath) s).result
      = (UpdateGroup api u org groupName newName newPath s).result.map .group := rfl
  rw [ht] at hp
  clear ht
  generalize (UpdateGroup api u org groupName newName newPath s).trace = t at hp ⊢
  generalize (UpdateGroup api u org groupName newName newPath s).result = r at hr ⊢
  generalize (run api u (.UpdateGroup org groupName newName newPath) s).result = rv at hp hr
  cases hp
  case invalid => simp
  case update_refused hq =>
    cases r <;> simp only [Except.map] at hr <;> cases hr
    have hno := hq.refused_no_update
    cases hq with
    | lookup e t hl =>
      have hnc := hl.no_update_check
      simp_all
    | filterFailed => simp_all [openingTrace, lookupTrace]
    | denied => simp_all [openingTrace, lookupTrace]
  case update_writeFailed g0 g rest gs r0 tn s1 gs2 dbe hgs hfree hgs2 hres hn hv =>
    refine ⟨fun _ => ⟨g, gs, (createGroup api org newName newPath s1).1, gs2, hres,
      by simp [openingTrace], hgs, rfl, rfl, rfl, rfl, by simp, hgs2⟩, ?_⟩
    intro user urn cands hmem
    have hnc := hn.no_update_check user urn cands (.ok [])
    simp_all [openingTrace, lookupTrace]
  case update_done g0 g rest gs r0 tn s1 gs2 updated hgs hfree hgs2 hres hn hv =>
    refine ⟨fun _ => ⟨g, gs, (createGroup api org newName newPath s1).1, gs2, hres,
      by simp [openingTrace], hgs, rfl, rfl, rfl, rfl, by simp, hgs2⟩, ?_⟩
    intro user urn cands hmem
    have hnc := hn.no_update_check user urn cands (.ok [])
    simp_all [openingTrace, lookupTrace]
  all_goals
    have hno := GetGroupByNamePath.no_update (‹GetGroupByNamePath _ _ _ _ _ _› : _)
    have hnc := GetGroupByNamePath.no_update_check (‹GetGroupByNamePath _ _ _ _ _ _› : _)
    cases r <;> simp only [Except.map] at hr <;> cases hr <;>
      simp_all [openingTrace, lookupTrace]

/-- C15 at work: renaming `dev` to `qa` reaches the repository after both
checks were answered with a non-empty list, and a caller who may not update
groups is turned away before the repository is updated. -/
theorem UpdateGroup_needs_both_permissions_witness :
    (∃ g gs renamed gs2,
      (GetGroupByName (exampleAPI allowAll) alice "org1" "dev" 0).result = .ok g ∧
      Call.GetAuthorizedGroups alice g.Urn .GROUP_ACTION_UPDATE_GROUP [g] (.ok gs)
        ∈ (UpdateGroup (exampleAPI allowAll) alice "org1" "dev" "qa" "/new" 0).trace ∧ gs ≠ [] ∧
      renamed.Org = "org1" ∧ renamed.Name = "qa" ∧ renamed.Path = "/new" ∧
      renamed.Urn = (exampleAPI allowAll).CreateUrn "org1" (exampleAPI allowAll).RESOURCE_GROUP
        "/new" "qa" ∧
      Call.GetAuthorizedGroups alice renamed.Urn .GROUP_ACTION_UPDATE_GROUP [renamed] (.ok gs2)
        ∈ (UpdateGroup (exampleAPI allowAll) alice "org1" "dev" "qa" "/new" 0).trace ∧
      gs2 ≠ []) ∧
    ((∀ g n p urn ret, Call.RepoUpdateGroup g n p urn ret
        ∉ (UpdateGroup (exampleAPI (denyAction .GROUP_ACTION_UPDATE_GROUP)) alice
            "org1" "dev" "qa" "/new" 0).trace) ∧
      ∃ m, (UpdateGroup (exampleAPI (denyAction .GROUP_ACTION_UPDATE_GROUP)) alice
          "org1" "dev" "qa" "/new" 0).result = .error ⟨.UNAUTHORIZED_RESOURCES_ERROR, m⟩) :=
  ⟨(UpdateGroup_needs_both_permissions (exampleAPI allowAll) alice "org1" "dev" "qa" "/new" 0).1
      ⟨devGroup, "qa", "/new", "urn:org1:group:/new/qa",
        .ok { devGroup with Name := "qa", Path := "/new", Urn := "urn:org1:group:/new/qa" },
        by decide⟩,
   (UpdateGroup_needs_both_permissions (exampleAPI (denyAction .GROUP_ACTION_UPDATE_GROUP)) alice
      "org1" "dev" "qa" "/new" 0).2 alice devGroup.Urn [devGroup] (by decide)⟩

/-! ## C16: the mutating call is the last call and is guarded -/

/-- C17: relation changes are guarded by the relation.  Let the earlier steps of
`AddMember` have passed: the external ID is valid, `GetGroupByName` returned
`group`, the filter answered the `GROUP_ACTION_ADD_MEMBER` check with a
non-empty list and `GetUserByExternalId` returned `user`; and let the repository
answer `IsMemberOfGroup(user.ID, group.ID)` with `b`.  Then `AddMember` returns
`USER_IS_ALREADY_A_MEMBER_OF_GROUP` exactly when `b` is true, and in that case it
stops in the world the check left, having made no further call; when `b` is
false it calls `GroupRepo.AddMember(user.ID, group.ID)` in that world, ends in
the world this call leaves and returns what the call answered (success, or
`UNKNOWN_API_ERROR` for a database error).  The same holds for `RemoveMember`
with `USER_IS_NOT_A_MEMBER_OF_GROUP` returned exactly when `b` is false and
`GroupRepo.RemoveMember` called when it is true, for `AttachPolicyToGroup` with
`IsAttachedToGroup(group.ID, policy.ID)`, `POLICY_IS_ALREADY_ATTACHED_TO_GROUP`
and `AttachPolicy`, and for `DetachPolicyToGroup` with
`POLICY_IS_NOT_ATTACHED_TO_GROUP` and `DetachPolicy`. -/
theorem relation_guards_relation_changes (api : AuthAPI σ) (u : AuthenticatedUser) (s : σ) :
    (∀ (userID groupName org : String) (group : Group) (s1 : σ) (t1 : List Call)
        (gs : List Group) (s2 : σ) (user : User) (s3 : σ) (b : Bool) (s4 : σ),
      api.IsValidUserExternalID userID = true →
      GetGroupByName api u org groupName s = ⟨.ok group, s1, t1⟩ →
      api.GetAuthorizedGroups u group.Urn .GROUP_ACTION_ADD_MEMBER [group] s1 = (.ok gs, s2) →
      gs ≠ [] →
      api.GetUserByExternalId u userID s2 = (.ok user, s3) →
      api.GroupRepo.IsMemberOfGroup user.ID group.ID s3 = (.ok b, s4) →
      ((∃ m, (AddMember api u userID groupName org s).result = .error ⟨.USER_IS_ALREADY_A_MEMBER_OF_GROUP, m⟩) ↔ b = true) ∧
      (b = true → (AddMember api u userID groupName org s).state = s4 ∧
        (AddMember api u userID groupName org s).trace =
          t1 ++ [Call.GetAuthorizedGroups u group.Urn .GROUP_ACTION_ADD_MEMBER [group] (.ok gs),
            Call.GetUserByExternalId u userID (.ok user),
            Call.RepoIsMemberOfGroup user.ID group.ID (.ok true)]) ∧
      (b = false →
        (AddMember api u userID groupName org s).result
          = afterWrite (api.GroupRepo.AddMember user.ID group.ID s4).1 ∧
        (AddMember api u userID groupName org s).state = (api.GroupRepo.AddMember user.ID group.ID s4).2 ∧
        (AddMember api u userID groupName org s).trace =
          t1 ++ [Call.GetAuthorizedGroups u group.Urn .GROUP_ACTION_ADD_MEMBER [group] (.ok gs),
            Call.GetUserByExternalId u userID (.ok user),
            Call.RepoIsMemberOfGroup user.ID group.ID (.ok false),
            Call.RepoAddMember user.ID group.ID (api.GroupRepo.AddMember user.ID group.ID s4).1])) ∧
    (∀ (userID groupName org : String) (group : Group) (s1 : σ) (t1 : List Call)
        (gs : List Group) (s2 : σ) (user : User) (s3 : σ) (b : Bool) (s4 : σ),
      api.IsValidUserExternalID userID = true →
      GetGroupByName api u org groupName s = ⟨.ok group, s1, t1⟩ →
      api.GetAuthorizedGroups u group.Urn .GROUP_ACTION_REMOVE_MEMBER [group] s1 = (.ok gs, s2) →
      gs ≠ [] →
      api.GetUserByExternalId u userID s2 = (.ok user, s3) →
      api.GroupRepo.IsMemberOfGroup user.ID group.ID s3 = (.ok b, s4) →
      ((∃ m, (RemoveMember api u userID groupName org s).result = .error ⟨.USER_IS_NOT_A_MEMBER_OF_GROUP, m⟩) ↔ b = false) ∧
      (b = false → (RemoveMember api u userID groupName org s).state = s4 ∧
        (RemoveMember api u userID groupName org s).trace =
          t1 ++ [Call.GetAuthorizedGroups u group.Urn .GROUP_ACTION_REMOVE_MEMBER [group] (.ok gs),
            Call.GetUserByExternalId u userID (.ok user),
            Call.RepoIsMemberOfGroup user.ID group.ID (.ok false)]) ∧
      (b = true →
        (RemoveMember api u userID groupName org s).result
          = afterWrite (api.GroupRepo.RemoveMember user.ID group.ID s4).1 ∧
        (RemoveMember api u userID groupName org s).state = (api.GroupRepo.RemoveMember user.ID group.ID s4).2 ∧
        (RemoveMember api u userID groupName org s).trace =
          t1 ++ [Call.GetAuthorizedGroups u group.Urn .GROUP_ACTION_REMOVE_MEMBER [group] (.ok gs),
            Call.GetUserByExternalId u userID (.ok user),
            Call.RepoIsMemberOfGroup user.ID group.ID (.ok true),
            Call.RepoRemoveMember user.ID group.ID (api.GroupRepo.RemoveMember user.ID group.ID s4).1])) ∧
    (∀ (org groupName policyName : String) (group : Group) (s1 : σ) (t1 : List Call)
        (gs : List Group) (s2 : σ) (policy : Policy) (s3 : σ) (b : Bool) (s4 : σ),
      api.IsValidName policyName = true →
      GetGroupByName api u org groupName s = ⟨.ok group, s1, t1⟩ →
      api.GetAuthorizedGroups u group.Urn .GROUP_ACTION_ATTACH_GROUP_POLICY [group] s1 = (.ok gs, s2) →
      gs ≠ [] →
      api.GetPolicyByName u org policyName s2 = (.ok policy, s3) →
      api.GroupRepo.IsAttachedToGroup group.ID policy.ID s3 = (.ok b, s4) →
      ((∃ m, (AttachPolicyToGroup api u org groupName policyName s).result = .error ⟨.POLICY_IS_ALREADY_ATTACHED_TO_GROUP, m⟩) ↔ b = true) ∧
      (b = true → (AttachPolicyToGroup api u org groupName policyName s).state = s4 ∧
        (AttachPolicyToGroup api u org groupName policyName s).trace =
          t1 ++ [Call.GetAuthorizedGroups u group.Urn .GROUP_ACTION_ATTACH_GROUP_POLICY [group] (.ok gs),
            Call.GetPolicyByName u org policyName (.ok policy),
            Call.RepoIsAttachedToGroup group.ID policy.ID (.ok true)]) ∧
      (b = false →
        (AttachPolicyToGroup api u org groupName policyName s).result
          = afterWrite (api.GroupRepo.AttachPolicy group.ID policy.ID s4).1 ∧
        (AttachPolicyToGroup api u org groupName policyName s).state = (api.GroupRepo.AttachPolicy group.ID policy.ID s4).2 ∧
        (AttachPolicyToGroup api u org groupName policyName s).trace =
          t1 ++ [Call.GetAuthorizedGroups u group.Urn .GROUP_ACTION_ATTACH_GROUP_POLICY [group] (.ok gs),
            Call.GetPolicyByName u org policyName (.ok policy),
            Call.RepoIsAttachedToGroup group.ID policy.ID (.ok false),
            Call.RepoAttachPolicy group.ID policy.ID (api.GroupRepo.AttachPolicy group.ID policy.ID s4).1])) ∧
    (∀ (org groupName policyName : String) (group : Group) (s1 : σ) (t1 : List Call)
        (gs : List Group) (s2 : σ) (policy : Policy) (s3 : σ) (b : Bool) (s4 : σ),
      api.IsValidName policyName = true →
      GetGroupByName api u org groupName s = ⟨.ok group, s1, t1⟩ →
      api.GetAuthorizedGroups u group.Urn .GROUP_ACTION_DETACH_GROUP_POLICY [group] s1 = (.ok gs, s2) →
      gs ≠ [] →
      api.GetPolicyByName u org policyName s2 = (.ok policy, s3) →
      api.GroupRepo.IsAttachedToGroup group.ID policy.ID s3 = (.ok b, s4) →
      ((∃ m, (DetachPolicyToGroup api u org groupName policyName s).result = .error ⟨.POLICY_IS_NOT_ATTACHED_TO_GROUP, m⟩) ↔ b = false) ∧
      (b = false → (DetachPolicyToGroup api u org groupName policyName s).state = s4 ∧
        (DetachPolicyToGroup api u org groupName policyName s).trace =
          t1 ++ [Call.GetAuthorizedGroups u group.Urn .GROUP_ACTION_DETACH_GROUP_POLICY [group] (.ok gs),
            Call.GetPolicyByName u org policyName (.ok policy),
            Call.RepoIsAttachedToGroup group.ID policy.ID (.ok false)]) ∧
      (b = true →
        (DetachPolicyToGroup api u org groupName policyName s).result
          = afterWrite (api.GroupRepo.DetachPolicy group.ID policy.ID s4).1 ∧
        (DetachPolicyToGroup api u org groupName policyName s).state = (api.GroupRepo.DetachPolicy group.ID policy.ID s4).2 ∧
        (DetachPolicyToGroup api u org groupName policyName s).trace =
          t1 ++ [Call.GetAuthorizedGroups u group.Urn .GROUP_ACTION_DETACH_GROUP_POLICY [group] (.ok gs),
            Call.GetPolicyByName u org policyName (.ok policy),
            Call.RepoIsAttachedToGroup group.ID policy.ID (.ok true),
            Call.RepoDetachPolicy group.ID policy.ID (api.GroupRepo.DetachPolicy group.ID policy.ID s4).1])) := by
  refine ⟨?_, ?_, ?_, ?_⟩
  · intro userID groupName org group s1 t1 gs s2 user s3 b s4 hid hgroup hmay hgs hfetch hrel
    have hv := GetGroupByName_ok_valid (show (GetGroupByName api u org groupName s).result
      = .ok group by rw [hgroup])
    simp only [Bool.and_eq_true] at hv
    have hlen := length_lt_one_of_ne_nil hgs
    simp only [AddMember, hid, hv.1, hv.2, hgroup, hmay, hfetch, hrel, hlen, Bool.not_true,
      Bool.false_eq_true, if_false]
    cases b
    · simp only [Bool.false_eq_true, if_false, Bool.not_false, if_true]
      cases hw : (api.GroupRepo.AddMember user.ID group.ID s4).1 <;> simp [afterWrite]
    · simp only [Bool.not_true, Bool.false_eq_true, if_false, if_true]
      cases hw : (api.GroupRepo.AddMember user.ID group.ID s4).1 <;> simp [afterWrite]
  · intro userID groupName org group s1 t1 gs s2 user s3 b s4 hid hgroup hmay hgs hfetch hrel
    have hv := GetGroupByName_ok_valid (show (GetGroupByName api u org groupName s).result
      = .ok group by rw [hgroup])
    simp only [Bool.and_eq_true] at hv
    have hlen := length_lt_one_of_ne_nil hgs
    simp only [RemoveMember, hid, hv.1, hv.2, hgroup, hmay, hfetch, hrel, hlen, Bool.not_true,
      Bool.false_eq_true, if_false]
    cases b
    · simp only [Bool.false_eq_true, if_false, Bool.not_false, if_true]
      cases hw : (api.GroupRepo.RemoveMember user.ID group.ID s4).1 <;> simp [afterWrite]
    · simp only [Bool.not_true, Bool.false_eq_true, if_false, if_true]
      cases hw : (api.GroupRepo.RemoveMember user.ID group.ID s4).1 <;> simp [afterWrite]
  · intro org groupName policyName group s1 t1 gs s2 policy s3 b s4 hid hgroup hmay hgs hfetch hrel
    have hv := GetGroupByName_ok_valid (show (GetGroupByName api u org groupName s).result
      = .ok group by rw [hgroup])
    simp only [Bool.and_eq_true] at hv
    have hlen := length_lt_one_of_ne_nil hgs
    simp only [AttachPolicyToGroup, hid, hv.1, hv.2, hgroup, hmay, hfetch, hrel, hlen, Bool.not_true,
      Bool.false_eq_true, if_false]
    cases b
    · simp only [Bool.false_eq_true, if_false, Bool.not_false, if_true]
      cases hw : (api.GroupRepo.AttachPolicy group.ID policy.ID s4).1 <;> simp [afterWrite]
    · simp only [Bool.not_true, Bool.false_eq_true, if_false, if_true]
      cases hw : (api.GroupRepo.AttachPolicy group.ID policy.ID s4).1 <;> simp [afterWrite]
  · intro org groupName policyName group s1 t1 gs s2 policy s3 b s4 hid hgroup hmay hgs hfetch hrel
    have hv := GetGroupByName_ok_valid (show (GetGroupByName api u org groupName s).result
      = .ok group by rw [hgroup])
    simp only [Bool.and_eq_true] at hv
    have hlen := length_lt_one_of_ne_nil hgs
    simp only [DetachPolicyToGroup, hid, hv.1, hv.2, hgroup, hmay, hfetch, hrel, hlen, Bool.not_true,
      Bool.false_eq_true, if_false]
    cases b
    · simp only [Bool.false_eq_true, if_false, Bool.not_false, if_true]
      cases hw : (api.GroupRepo.DetachPolicy group.ID policy.ID s4).1 <;> simp [afterWrite]
    · simp only [Bool.not_true, Bool.false_eq_true, if_false, if_true]
      cases hw : (api.GroupRepo.DetachPolicy group.ID policy.ID s4).1 <;> simp [afterWrite]

/-- C17 at work: `carol` is no member of `dev`, so `AddMember` calls
`GroupRepo.AddMember` with her ID and the ID of `dev`, and ends in the world
that call leaves. -/
theorem relation_guards_relation_changes_witness :
    (AddMember (exampleAPI allowAll) alice "carol" "dev" "org1" 0).result
      = afterWrite ((exampleAPI allowAll).GroupRepo.AddMember carol.ID devGroup.ID 5).1 ∧
    (AddMember (exampleAPI allowAll) alice "carol" "dev" "org1" 0).state
      = ((exampleAPI allowAll).GroupRepo.AddMember carol.ID devGroup.ID 5).2 ∧
    (AddMember (exampleAPI allowAll) alice "carol" "dev" "org1" 0).trace =
      lookupTrace alice "org1" "dev" devGroup (.ok [devGroup]) ++
        [Call.GetAuthorizedGroups alice devGroup.Urn .GROUP_ACTION_ADD_MEMBER [devGroup]
          (.ok [devGroup]),
         Call.GetUserByExternalId alice "carol" (.ok carol),
         Call.RepoIsMemberOfGroup carol.ID devGroup.ID (.ok false),
         Call.RepoAddMember carol.ID devGroup.ID
          ((exampleAPI allowAll).GroupRepo.AddMember carol.ID devGroup.ID 5).1] :=
  ((relation_guards_relation_changes (exampleAPI allowAll) alice 0).1 "carol" "dev" "org1"
    devGroup 2 (lookupTrace alice "org1" "dev" devGroup (.ok [devGroup])) [devGroup] 3 carol 4
    false 5 (by decide) rfl rfl (by decide) rfl rfl).2.2 rfl

/-! ## C18: what `GetGroupByName` returns -/

/-- C18: `GetGroupByName` returns `g` if and only if `name` and `org` are valid,
the repository lookup of `(org, name)` succeeds with a group `found`, and the
filter answers `GROUP_ACTION_GET_GROUP` on the URN of `found`, with `found` as
the candidate, with a list and no error, the first element of which is `g` (so
the list is not empty).  When that list is a sublist of the candidates, the
group returned is the group the repository returned. -/
theorem GetGroupByName_returns_first_allowed (api : AuthAPI σ) (u : AuthenticatedUser)
    (org name : String) (s : σ) (g : Group) :
    ((GetGroupByName api u org name s).result = .ok g ↔
      api.IsValidName name = true ∧ api.IsValidOrg org = true ∧
      ∃ found allowed,
        (api.GroupRepo.GetGroupByName org name s).1 = .ok found ∧
        (api.GetAuthorizedGroups u found.Urn .GROUP_ACTION_GET_GROUP [found]
          (api.GroupRepo.GetGroupByName org name s).2).1 = .ok allowed ∧
        allowed.head? = some g ∧ allowed ≠ []) ∧
    ((GetGroupByName api u org name s).result = .ok g →
      ∀ found allowed,
        (api.GroupRepo.GetGroupByName org name s).1 = .ok found →
        (api.GetAuthorizedGroups u found.Urn .GROUP_ACTION_GET_GROUP [found]
          (api.GroupRepo.GetGroupByName org name s).2).1 = .ok allowed →
        allowed.Sublist [found] → g = found) := by
  simp only [GetGroupByName]
  repeat' split
  all_goals simp_all [cons_sublist_singleton]
  intro h1 found allowed hf h2 h3
  subst hf h1
  have h4 := h2.symm.trans (‹_ = Except.ok (_ :: _)› : _)
  simp only [Except.ok.injEq] at h4
  subst h4
  simp at h3
  exact h3.1
/-- C18 at work: `alice` asks for `dev`; the lookup and the filter answered as
the theorem says, and she gets the group the repository holds. -/
theorem GetGroupByName_returns_first_allowed_witness :
    ((exampleAPI allowAll).IsValidName "dev" = true ∧ (exampleAPI allowAll).IsValidOrg "org1" = true ∧
      ∃ found allowed,
        ((exampleAPI allowAll).GroupRepo.GetGroupByName "org1" "dev" 0).1 = .ok found ∧
        ((exampleAPI allowAll).GetAuthorizedGroups alice found.Urn .GROUP_ACTION_GET_GROUP [found]
          ((exampleAPI allowAll).GroupRepo.GetGroupByName "org1" "dev" 0).2).1 = .ok allowed ∧
        allowed.head? = some devGroup ∧ allowed ≠ []) ∧
    devGroup = devGroup :=
  ⟨(GetGroupByName_returns_first_allowed (exampleAPI allowAll) alice "org1" "dev" 0 devGroup).1.1
      (by decide),
   (GetGroupByName_returns_first_allowed (exampleAPI allowAll) alice "org1" "dev" 0 devGroup).2
      (by decide) devGroup [devGroup] (by decide) (by decide) (List.Sublist.refl _)⟩

/-- The group returned is the first element of the answer of the filter: a
filter that answers with `ops`, which is no sublist of the candidate `dev`,
makes `GetGroupByName` return `ops` for the name `dev`. -/
theorem GetGroupByName_returns_what_filter_answers :
    ((exampleAPI (answerWith [opsGroup, devGroup])).GroupRepo.GetGroupByName "org1" "dev" 0).1
      = .ok devGroup ∧
    (GetGroupByName (exampleAPI (answerWith [opsGroup, devGroup])) alice "org1" "dev" 0).result
      = .ok opsGroup := by
  decide

/-! ## C19: the error responders and a failed encoding -/

/-- The path of a failed encoding: `writeErrorWithStatus` returns the nil writer
with the error, the responder has assigned it to its parameter `w` and hands it
to `RespondInternalServerError`, which logs and then panics on `w.WriteHeader`;
the request's writer is told nothing. -/
theorem error_responders_panic_when_encoding_fails (marshal : Error → Except String String)
    (r : Request) (requestInfo : RequestInfo) (apiError : Error) (c : Conn) (err : String)
    (herr : marshal apiError = .error err) :
    WorkerHandler.RespondNotFound marshal r requestInfo .request apiError c
      = .panicked { c with log := c.log ++ [serverErrorEntry r requestInfo] } ∧
    WorkerHandler.RespondBadRequest marshal r requestInfo .request apiError c
      = .panicked { c with log := c.log ++ [serverErrorEntry r requestInfo] } ∧
    WorkerHandler.RespondConflict marshal r requestInfo .request apiError c
      = .panicked { c with log := c.log ++ [serverErrorEntry r requestInfo] } ∧
    WorkerHandler.RespondForbidden marshal r requestInfo .request apiError c
      = .panicked { c with log := c.log ++ [serverErrorEntry r requestInfo] } := by
  simp [WorkerHandler.RespondNotFound, WorkerHandler.RespondBadRequest,
    WorkerHandler.RespondConflict, WorkerHandler.RespondForbidden, writeErrorWithStatus, herr,
    Ran.andThen, WorkerHandler.RespondInternalServerError, ResponseWriter.WriteHeader,
    serverErrorEntry]

/-- The sibling `RespondOk` hands the request's writer on: when its encoding
fails it answers with status 500 and returns. -/
theorem RespondOk_answers_500_when_encoding_fails :
    WorkerHandler.RespondOk failingMarshal exampleRequest exampleInfo .request
        ⟨.GROUP_BY_ORG_AND_NAME_NOT_FOUND, "group not found"⟩ freshConn
      = .returned () { freshConn with
          status := some 500, log := [serverErrorEntry exampleRequest exampleInfo] } := by
  decide

/-- With an encoder that succeeds, `RespondNotFound` writes the error with
status 404. -/
theorem RespondNotFound_writes_404 :
    WorkerHandler.RespondNotFound messageMarshal exampleRequest exampleInfo .request
        ⟨.GROUP_BY_ORG_AND_NAME_NOT_FOUND, "group not found"⟩ freshConn
      = .returned ()
          { header := [("Content-Type", "application/json")], status := some 404,
            body := "group not found", log := [] } := by
  decide

end Foulkon
